import Mathlib

/-!
# Verification of the manow meeting-booking core

A shallow embedding of the booking engine: the Postgres schema
(`db/init.sql` / `db/schema.ts`), `HoldService`, `BookingService`,
`NdaService.updateDocumentStatus`, the SignWell webhook handler, the
public booking routes, and the `AvailabilityService` slot computation.

Conventions of the embedding:
* instants are `Nat` milliseconds since the Unix epoch (the code uses
  JavaScript `Date` values, i.e. milliseconds);
* identifiers (UUIDs) are `Nat`; external document ids are `String`;
* each database table is a `List` of rows in insertion order; a SQL
  `UPDATE ... WHERE` is a `List.map` guarded by the `WHERE` predicate,
  an `INSERT` appends, and a `SELECT ... LIMIT 1`-style destructuring
  (`const [row] = await ...`) is `List.find?`;
* the model is sequential: each service call runs atomically, which is
  what the per-transaction advisory lock and the storage transactions
  give the real system for the properties treated here;
* the event bus is a `List BusEvent`; a publish appends.  Every publish
  in the source generates a fresh `eventId` (`crypto.randomUUID()`), so
  the JetStream 2-minute `msgID` deduplication window never coalesces
  two publishes; the model therefore omits event ids.
-/

/-- `hold_status` enum. -/
inductive HoldStatus where
  | active | converted | expired | released
deriving DecidableEq, Repr

/-- `booking_status` enum. -/
inductive BookingStatus where
  | confirmed | canceled | completed | noShow
deriving DecidableEq, Repr

/-- `document_status` enum. -/
inductive DocumentStatus where
  | pending | sent | signed | expired | revoked
deriving DecidableEq, Repr

/-- `processed_webhooks.status` values used by the webhook handler. -/
inductive WebhookStatus where
  | processing | completed | failed
deriving DecidableEq, Repr

/-- Reason carried by a `slot.released` event. -/
inductive ReleaseReason where
  | canceled | converted | expired
deriving DecidableEq, Repr

/-- The reason argument of `HoldService.releaseHold` (TS union type
`'canceled' | 'converted'`). -/
inductive ReleaseKind where
  | canceled | converted
deriving DecidableEq, Repr

/-- A row of `slot_holds`. -/
structure SlotHold where
  id : Nat
  meetingTypeId : Nat
  slotStart : Nat
  slotEnd : Nat
  heldByEmail : String
  heldByName : Option String
  status : HoldStatus
  expiresAt : Nat
  idempotencyKey : Nat
deriving DecidableEq, Repr

/-- A row of `bookings`. -/
structure Booking where
  id : Nat
  meetingTypeId : Nat
  hostUserId : Nat
  slotStart : Nat
  slotEnd : Nat
  guestEmail : String
  guestName : String
  guestTimezone : String
  guestNotes : Option String
  status : BookingStatus
  idempotencyKey : Nat
  fromHoldId : Option Nat
deriving DecidableEq, Repr

/-- A row of `meeting_types` (fields the core reads). -/
structure MeetingType where
  id : Nat
  ownerId : Nat
  slug : String
  durationMinutes : Nat
  bufferBeforeMinutes : Nat
  bufferAfterMinutes : Nat
  requiresNda : Bool
  isActive : Bool
deriving DecidableEq, Repr

/-- A row of `documents` (fields the core reads and writes). -/
structure Document where
  id : Nat
  holdId : Option Nat
  bookingId : Option Nat
  status : DocumentStatus
  signerEmail : String
  externalEnvelopeId : Option String
  sentAt : Option Nat
  signedAt : Option Nat
  signedStorageUrl : Option String
deriving DecidableEq, Repr

/-- The webhook response bodies the SignWell handler produces: the JSON
object `received: true`, or an error body. -/
inductive RespBody where
  | received
  | errorBody (msg : String)
deriving DecidableEq, Repr

/-- A row of `processed_webhooks`. -/
structure ProcessedWebhook where
  webhookId : String
  provider : String
  eventType : String
  status : WebhookStatus
  responseBody : Option RespBody
deriving DecidableEq, Repr

/-- Events carried on the bus (the `data` payloads the claims inspect). -/
inductive BusEvent where
  | slotHeld (holdId meetingTypeId slotStart slotEnd : Nat)
  | slotReleased (holdId meetingTypeId slotStart slotEnd : Nat) (reason : ReleaseReason)
  | bookingConfirmed (bookingId meetingTypeId : Nat)
  | bookingCanceled (bookingId : Nat)
  | ndaSent (documentId holdId : Nat)
  | ndaSigned (documentId holdId signedAt : Nat)
  | ndaExpired (documentId holdId : Nat)
deriving DecidableEq, Repr

/-- Full database-plus-bus state. -/
structure DBState where
  meetingTypes : List MeetingType
  holds : List SlotHold
  bookings : List Booking
  documents : List Document
  processedWebhooks : List ProcessedWebhook
  events : List BusEvent
deriving DecidableEq, Repr

/-- Overlap of the half-open ranges `[s1, e1)` and `[s2, e2)`, as decided
by Postgres `tstzrange(s, e, '[)') && tstzrange(...)`: an empty range
(`s ≥ e`) overlaps nothing, and two nonempty ranges overlap iff each
starts before the other ends. -/
def rangesOverlap (s1 e1 s2 e2 : Nat) : Bool :=
  s1 < e1 && s2 < e2 && s1 < e2 && s2 < e1

/-! ## HoldService (`apps/api/src/services/hold.service.ts`) -/

/-- `HOLD_DURATION_MS = 15 * 60 * 1000`. -/
def HOLD_DURATION_MS : Nat := 15 * 60 * 1000

/-- JavaScript `toLowerCase()`, as a character-wise map (the inputs the
core lowercases are plain ASCII emails and slugs). -/
def lowerString (s : String) : String := ⟨s.data.map Char.toLower⟩

/-- `CreateHoldParams`. -/
structure CreateHoldParams where
  meetingTypeId : Nat
  slotStart : Nat
  slotEnd : Nat
  email : String
  name : Option String
  idempotencyKey : Nat
deriving DecidableEq, Repr

/-- `HoldResult`. -/
structure HoldResult where
  success : Bool
  holdId : Option Nat
  expiresAt : Option Nat
  error : Option String
deriving DecidableEq, Repr

/-- The string the service interpolates for a non-active hold status
(`Hold is ...` in `BookingService`). -/
def holdStatusText : HoldStatus → String
  | .active => "active"
  | .converted => "converted"
  | .expired => "expired"
  | .released => "released"

/-- `HoldService.createHold`, one transaction.  `now` is `Date.now()` and
`newId` stands for the `crypto.randomUUID()` the call draws.  Step 3 of
the source (the advisory lock) serializes concurrent attempts; in this
sequential model every call is already atomic. -/
def createHold (st : DBState) (now : Nat) (p : CreateHoldParams) (newId : Nat) :
    DBState × HoldResult :=
  -- 1. idempotency short-circuit
  match st.holds.find? (fun h => h.idempotencyKey == p.idempotencyKey) with
  | some existing =>
    if existing.status = .active then
      (st, ⟨true, some existing.id, some existing.expiresAt, none⟩)
    else
      (st, ⟨false, none, none, some "Previous hold expired"⟩)
  | none =>
    -- 2. meeting type exists and is active
    match st.meetingTypes.find? (fun mt => mt.id == p.meetingTypeId && mt.isActive) with
    | none => (st, ⟨false, none, none, some "Meeting type not found"⟩)
    | some _ =>
      -- 4. conflict with an active hold
      match st.holds.find? (fun h =>
          h.meetingTypeId == p.meetingTypeId && h.status == .active &&
          rangesOverlap h.slotStart h.slotEnd p.slotStart p.slotEnd) with
      | some _ => (st, ⟨false, none, none, some "Slot already held"⟩)
      | none =>
        -- 5. conflict with a confirmed booking
        match st.bookings.find? (fun b =>
            b.meetingTypeId == p.meetingTypeId && b.status == .confirmed &&
            rangesOverlap b.slotStart b.slotEnd p.slotStart p.slotEnd) with
        | some _ => (st, ⟨false, none, none, some "Slot already booked"⟩)
        | none =>
          -- 6. insert (the `no_overlapping_active_holds` exclusion
          -- constraint cannot fire: step 4 just checked the same ranges)
          let expiresAt := now + HOLD_DURATION_MS
          let newHold : SlotHold :=
            { id := newId
              meetingTypeId := p.meetingTypeId
              slotStart := p.slotStart
              slotEnd := p.slotEnd
              heldByEmail := lowerString p.email
              heldByName := p.name
              status := .active
              expiresAt := expiresAt
              idempotencyKey := p.idempotencyKey }
          ({ st with holds := st.holds ++ [newHold] },
            ⟨true, some newId, some expiresAt, none⟩)

/-- `HoldService.releaseHold`: compare-and-set out of `active`, then
publish `slot.released` with the given reason for the row actually
transitioned. -/
def releaseHold (st : DBState) (holdId : Nat) (reason : ReleaseKind) :
    DBState × Bool :=
  match st.holds.find? (fun h => h.id == holdId && h.status == .active) with
  | none => (st, false)
  | some hold =>
    let newStatus : HoldStatus :=
      match reason with
      | .converted => .converted
      | .canceled => .released
    let eventReason : ReleaseReason :=
      match reason with
      | .converted => .converted
      | .canceled => .canceled
    let holds := st.holds.map (fun h =>
      if h.id == holdId && h.status == .active then { h with status := newStatus } else h)
    ({ st with
        holds := holds
        events := st.events ++
          [.slotReleased hold.id hold.meetingTypeId hold.slotStart hold.slotEnd eventReason] },
      true)

/-- `HoldService.expireHolds` (the sweeper): transition every active hold
with `expires_at < now` to `expired` and publish one
`slot.released reason=expired` per returned row. -/
def expireHolds (st : DBState) (now : Nat) : DBState × List SlotHold :=
  let isDue := fun (h : SlotHold) => h.status == HoldStatus.active && h.expiresAt < now
  let expired := st.holds.filter isDue
  let holds := st.holds.map (fun h => if isDue h then { h with status := HoldStatus.expired } else h)
  ({ st with
      holds := holds
      events := st.events ++ expired.map (fun h =>
        .slotReleased h.id h.meetingTypeId h.slotStart h.slotEnd .expired) },
    expired)

/-- `HoldService.extendHold`: reset `expires_at` on a still-active hold. -/
def extendHold (st : DBState) (now : Nat) (holdId : Nat) :
    DBState × Option SlotHold :=
  let newExpiresAt := now + HOLD_DURATION_MS
  match st.holds.find? (fun h => h.id == holdId && h.status == .active) with
  | none => (st, none)
  | some hold =>
    ({ st with holds := st.holds.map (fun h =>
        if h.id == holdId && h.status == .active then { h with expiresAt := newExpiresAt } else h) },
      some { hold with expiresAt := newExpiresAt })

/-! ## BookingService (`apps/api/src/services/booking.service.ts`) -/

/-- `ConfirmBookingParams`. -/
structure ConfirmBookingParams where
  holdId : Nat
  guestName : String
  guestTimezone : String
  guestNotes : Option String
  idempotencyKey : Nat
deriving DecidableEq, Repr

/-- `BookingResult`. -/
structure BookingResult where
  success : Bool
  booking : Option Booking
  error : Option String
deriving DecidableEq, Repr

/-- `BookingService.confirmBooking`, one transaction. `newBookingId`
stands for the drawn `crypto.randomUUID()`.  The insert of step 5 is
guarded by the `no_double_booking` exclusion constraint of the bookings
table: when a confirmed booking on the same meeting type overlaps, the
whole transaction aborts with no state change and the caller receives
the mapped `Slot already booked` failure. -/
def confirmBooking (st : DBState) (now : Nat) (p : ConfirmBookingParams)
    (newBookingId : Nat) : DBState × BookingResult :=
  -- 1. idempotent replay
  match st.bookings.find? (fun b => b.idempotencyKey == p.idempotencyKey) with
  | some existingBooking => (st, ⟨true, some existingBooking, none⟩)
  | none =>
    -- 2. get and validate hold
    match st.holds.find? (fun h => h.id == p.holdId) with
    | none => (st, ⟨false, none, some "Hold not found"⟩)
    | some hold =>
      if hold.status ≠ .active then
        (st, ⟨false, none, some ("Hold is " ++ holdStatusText hold.status)⟩)
      else if hold.expiresAt < now then
        ({ st with holds := st.holds.map (fun h =>
            if h.id == p.holdId then { h with status := HoldStatus.expired } else h) },
          ⟨false, none, some "Hold has expired"⟩)
      else
        -- 3. meeting type for host info
        match st.meetingTypes.find? (fun mt => mt.id == hold.meetingTypeId) with
        | none => (st, ⟨false, none, some "Meeting type not found"⟩)
        | some meetingType =>
          -- 4. NDA gating
          if meetingType.requiresNda &&
              (st.documents.find? (fun d =>
                d.holdId == some p.holdId && d.status == .signed)).isNone then
            (st, ⟨false, none, some "NDA must be signed before booking"⟩)
          else
            -- 5. insert booking; `no_double_booking` aborts on overlap
            if (st.bookings.find? (fun b =>
                b.meetingTypeId == hold.meetingTypeId && b.status == .confirmed &&
                rangesOverlap b.slotStart b.slotEnd hold.slotStart hold.slotEnd)).isSome then
              (st, ⟨false, none, some "Slot already booked"⟩)
            else
              let booking : Booking :=
                { id := newBookingId
                  meetingTypeId := hold.meetingTypeId
                  hostUserId := meetingType.ownerId
                  slotStart := hold.slotStart
                  slotEnd := hold.slotEnd
                  guestEmail := hold.heldByEmail
                  guestName := p.guestName
                  guestTimezone := p.guestTimezone
                  guestNotes := p.guestNotes
                  status := .confirmed
                  idempotencyKey := p.idempotencyKey
                  fromHoldId := some p.holdId }
              -- 6. convert hold in-transaction, 7. link NDA document
              ({ st with
                  bookings := st.bookings ++ [booking]
                  holds := st.holds.map (fun h =>
                    if h.id == p.holdId then { h with status := HoldStatus.converted } else h)
                  documents := st.documents.map (fun d =>
                    if d.holdId == some p.holdId then { d with bookingId := some newBookingId } else d) },
                ⟨true, some booking, none⟩)

/-- `BookingService.cancelBooking`: compare-and-set `confirmed → canceled`,
then publish `booking.canceled` for the row actually transitioned. -/
def cancelBooking (st : DBState) (bookingId : Nat) : DBState × Option Booking :=
  match st.bookings.find? (fun b => b.id == bookingId && b.status == .confirmed) with
  | none => (st, none)
  | some booking =>
    ({ st with
        bookings := st.bookings.map (fun b =>
          if b.id == bookingId && b.status == .confirmed then { b with status := BookingStatus.canceled } else b)
        events := st.events ++ [.bookingCanceled booking.id] },
      some { booking with status := BookingStatus.canceled })

/-- `BookingService.markAsCompleted`. -/
def markAsCompleted (st : DBState) (bookingId : Nat) : DBState × Option Booking :=
  match st.bookings.find? (fun b => b.id == bookingId && b.status == .confirmed) with
  | none => (st, none)
  | some booking =>
    ({ st with bookings := st.bookings.map (fun b =>
        if b.id == bookingId && b.status == .confirmed then { b with status := BookingStatus.completed } else b) },
      some { booking with status := BookingStatus.completed })

/-- `BookingService.markAsNoShow`. -/
def markAsNoShow (st : DBState) (bookingId : Nat) : DBState × Option Booking :=
  match st.bookings.find? (fun b => b.id == bookingId && b.status == .confirmed) with
  | none => (st, none)
  | some booking =>
    ({ st with bookings := st.bookings.map (fun b =>
        if b.id == bookingId && b.status == .confirmed then { b with status := BookingStatus.noShow } else b) },
      some { booking with status := BookingStatus.noShow })

/-! ## NdaService (`apps/api/src/services/nda.service.ts`) -/

/-- Optional extra fields of `NdaService.updateDocumentStatus`. -/
structure DocUpdateData where
  signedAt : Option Nat
  signedStorageUrl : Option String
deriving DecidableEq, Repr

/-- `NdaService.updateDocumentStatus`: overwrite the status (and any
provided extra fields) of the document with the given id,
unconditionally. -/
def updateDocumentStatus (st : DBState) (documentId : Nat)
    (status : DocumentStatus) (extra : DocUpdateData) : DBState × Option Document :=
  match st.documents.find? (fun d => d.id == documentId) with
  | none => (st, none)
  | some _ =>
    let upd := fun (d : Document) =>
      { d with
          status := status
          signedAt := match extra.signedAt with | some t => some t | none => d.signedAt
          signedStorageUrl := match extra.signedStorageUrl with
            | some u => some u | none => d.signedStorageUrl }
    ({ st with documents := st.documents.map (fun d =>
        if d.id == documentId then upd d else d) },
      (st.documents.find? (fun d => d.id == documentId)).map upd)

/-! ## SignWell webhook handler (`apps/api/src/routes/webhooks.ts`)

The signature check and JSON parsing happen before the modelled region
and are orthogonal to the idempotency and document-update claims; the
embedding starts at the parsed payload.  In the model no storage call
throws, so the `failed` branch of the source (its catch-all) is
unreachable and the handler always finishes by marking the record
`completed`. -/

/-- The parsed SignWell payload fields the handler reads.
`holdId` is `custom_fields.hold_id`. -/
structure SignwellPayload where
  event : String
  documentId : String
  completedAt : Option Nat
  holdId : Option Nat
  signedUrl : Option String
deriving DecidableEq, Repr

/-- Dispatch of the handler on `body.event`: document updates keyed by
`documents.hold_id`, then the corresponding `nda.*` publish when a
document row exists for the hold. -/
def signwellDispatch (st : DBState) (now : Nat) (p : SignwellPayload) : DBState :=
  if p.event == "document_sent" then
    match p.holdId with
    | none => st
    | some holdId =>
      let docs := st.documents.map (fun d =>
        if d.holdId == some holdId then
          { d with
              status := DocumentStatus.sent
              sentAt := some now
              externalEnvelopeId := some p.documentId }
        else d)
      match docs.find? (fun d => d.holdId == some holdId) with
      | some doc => { st with documents := docs, events := st.events ++ [.ndaSent doc.id holdId] }
      | none => { st with documents := docs }
  else if p.event == "document_completed" then
    match p.holdId with
    | none => st
    | some holdId =>
      let signedAt := match p.completedAt with | some t => t | none => now
      let docs := st.documents.map (fun d =>
        if d.holdId == some holdId then
          { d with
              status := DocumentStatus.signed
              signedAt := some signedAt
              signedStorageUrl := p.signedUrl }
        else d)
      match docs.find? (fun d => d.holdId == some holdId) with
      | some doc =>
        { st with documents := docs, events := st.events ++ [.ndaSigned doc.id holdId signedAt] }
      | none => { st with documents := docs }
  else if p.event == "document_expired" then
    match p.holdId with
    | none => st
    | some holdId =>
      let docs := st.documents.map (fun d =>
        if d.holdId == some holdId then { d with status := DocumentStatus.expired } else d)
      match docs.find? (fun d => d.holdId == some holdId) with
      | some doc =>
        { st with documents := docs, events := st.events ++ [.ndaExpired doc.id holdId] }
      | none => { st with documents := docs }
  else
    st

/-- `POST /webhooks/signwell` from the parsed payload on: idempotency
lookup on `(provider = signwell, webhook_id = document_id:event)`,
dispatch, and completion marking.  Returns the new state and the JSON
response body. -/
def processSignwellWebhook (st : DBState) (now : Nat) (p : SignwellPayload) :
    DBState × RespBody :=
  let webhookId := p.documentId ++ ":" ++ p.event
  let isRecord := fun (w : ProcessedWebhook) =>
    w.provider == "signwell" && w.webhookId == webhookId
  match st.processedWebhooks.find? isRecord with
  | some existing =>
    if existing.status = .completed then
      -- already processed: replay the cached response
      (st, match existing.responseBody with | some b => b | none => .received)
    else
      -- leave the existing non-completed record in place, re-process
      let st1 := signwellDispatch st now p
      ({ st1 with processedWebhooks := st1.processedWebhooks.map (fun w =>
          if isRecord w then
            { w with
                status := WebhookStatus.completed
                responseBody := some RespBody.received }
          else w) },
        .received)
  | none =>
    let st0 := { st with processedWebhooks := st.processedWebhooks ++
      [{ webhookId := webhookId
         provider := "signwell"
         eventType := p.event
         status := .processing
         responseBody := none }] }
    let st1 := signwellDispatch st0 now p
    ({ st1 with processedWebhooks := st1.processedWebhooks.map (fun w =>
        if isRecord w then
          { w with
              status := WebhookStatus.completed
              responseBody := some RespBody.received }
        else w) },
      .received)

/-! ## Public booking routes (`apps/api/src/routes/meeting-types.ts`)

The route handlers compose the services with the post-commit event
publishes.  `getBySlugWithOwner` selects the meeting type by lowercased
slug with `is_active = true`.  The non-null assertions of the source
(`result.holdId!`, `result.booking!`) are modelled with `Option.getD`,
which the success paths never reach the default of. -/

/-- Body of `POST /book/:slug/hold`. -/
structure HoldRequestBody where
  slotStart : Nat
  slotEnd : Nat
  email : String
  name : Option String
  idempotencyKey : Nat
deriving DecidableEq, Repr

/-- Response of `POST /book/:slug/hold`. -/
inductive HoldRouteResponse where
  | notFound
  | conflict (message : String)
  | created (holdId : Nat) (expiresAt : Nat) (ndaRequired : Bool)
deriving DecidableEq, Repr

/-- `POST /book/:slug/hold`: resolve the meeting type, call
`createHold`, and on success publish `slot.held` (after the service
transaction has committed) before answering 201. -/
def routeCreateHold (st : DBState) (now : Nat) (slug : String)
    (data : HoldRequestBody) (newId : Nat) : DBState × HoldRouteResponse :=
  match st.meetingTypes.find? (fun mt => mt.slug == lowerString slug && mt.isActive) with
  | none => (st, .notFound)
  | some meetingType =>
    let r := createHold st now
      { meetingTypeId := meetingType.id
        slotStart := data.slotStart
        slotEnd := data.slotEnd
        email := data.email
        name := data.name
        idempotencyKey := data.idempotencyKey } newId
    if r.2.success then
      ({ r.1 with events := r.1.events ++
          [.slotHeld (r.2.holdId.getD 0) meetingType.id data.slotStart data.slotEnd] },
        .created (r.2.holdId.getD 0) (r.2.expiresAt.getD 0) meetingType.requiresNda)
    else
      (r.1, .conflict (r.2.error.getD ""))

/-- Body of `POST /book/:slug/confirm`. -/
structure ConfirmRequestBody where
  holdId : Nat
  guestName : String
  guestTimezone : String
  guestNotes : Option String
  idempotencyKey : Nat
deriving DecidableEq, Repr

/-- Response of `POST /book/:slug/confirm`. -/
inductive ConfirmRouteResponse where
  | notFound
  | badRequest (message : String)
  | ok (bookingId : Nat)
deriving DecidableEq, Repr

/-- `POST /book/:slug/confirm`: resolve the meeting type, check the hold
belongs to it, call `confirmBooking`; on success publish
`booking.confirmed` and then call `releaseHold(holdId, converted)`
(the post-commit "mark hold as converted" step of the route). -/
def routeConfirmBooking (st : DBState) (now : Nat) (slug : String)
    (data : ConfirmRequestBody) (newBookingId : Nat) :
    DBState × ConfirmRouteResponse :=
  match st.meetingTypes.find? (fun mt => mt.slug == lowerString slug && mt.isActive) with
  | none => (st, .notFound)
  | some meetingType =>
    -- getHoldWithMeetingType + slug check
    match st.holds.find? (fun h => h.id == data.holdId) with
    | none => (st, .notFound)
    | some hold =>
      match st.meetingTypes.find? (fun mt => mt.id == hold.meetingTypeId) with
      | none => (st, .notFound)
      | some holdMt =>
        if holdMt.slug ≠ slug then (st, .notFound)
        else
          let r := confirmBooking st now
            { holdId := data.holdId
              guestName := data.guestName
              guestTimezone := data.guestTimezone
              guestNotes := data.guestNotes
              idempotencyKey := data.idempotencyKey } newBookingId
          if r.2.success then
            let bookingId := (r.2.booking.map Booking.id).getD 0
            let st2 := { r.1 with events := r.1.events ++
              [.bookingConfirmed bookingId meetingType.id] }
            let st3 := (releaseHold st2 data.holdId .converted).1
            (st3, .ok bookingId)
          else
            (r.1, .badRequest (r.2.error.getD ""))

/-! ## AvailabilityService (`apps/api/src/services/availability.service.ts`)

The service does its date math with luxon in the host's IANA zone.  The
embedding fixes host zone, guest zone and system zone to UTC, where
luxon's calendar arithmetic coincides with plain epoch arithmetic:
a calendar day `d` is the half-open interval
`[d * DAY_MS, (d+1) * DAY_MS)` of instants, `startOf day = d * DAY_MS`,
`endOf day = (d+1) * DAY_MS - 1`, adding one calendar day adds `DAY_MS`,
and the weekday of epoch day `d` is `(d + 4) % 7` in the service's
Sunday-0 indexing (1970-01-01 was a Thursday).  The guest-zone
conversion at the end changes presentation only, never the instant, so
slots keep their absolute `start`/`end` here.  The properties settled
on this instance (ordering and occupancy selection) are
zone-independent. -/

/-- Milliseconds per minute. -/
def MINUTE_MS : Nat := 60 * 1000

/-- Milliseconds per calendar day (no DST in UTC). -/
def DAY_MS : Nat := 24 * 60 * 60 * 1000

/-- `weekday % 7` of an epoch day in luxon's Sunday-0 indexing. -/
def dayOfWeekOf (day : Nat) : Nat := (day + 4) % 7

/-- Civil (year, month, day) of an epoch day (proleptic Gregorian,
days ≥ 0); the standard era-based conversion. -/
def civilFromDays (z : Nat) : Nat × Nat × Nat :=
  let z' := z + 719468
  let era := z' / 146097
  let doe := z' % 146097
  let yoe := (doe + doe / 36524 - doe / 1460 - doe / 146096) / 365
  let y := yoe + era * 400
  let doy := doe - (365 * yoe + yoe / 4 - yoe / 100)
  let mp := (5 * doy + 2) / 153
  let d := doy - (153 * mp + 2) / 5 + 1
  let m := if mp < 10 then mp + 3 else mp - 9
  (if m ≤ 2 then y + 1 else y, m, d)

/-- An `availability_rules` row as the service loads it: wall-clock
times as the (hour, minute) pairs the code parses from the `TIME`
strings, effective dates as epoch days. -/
structure ARule where
  dayOfWeek : Nat
  startHour : Nat
  startMinute : Nat
  endHour : Nat
  endMinute : Nat
  effectiveFromDay : Nat
  effectiveUntilDay : Option Nat
deriving DecidableEq, Repr

/-- A `blackout_dates` row: the stored civil date, optional wall-clock
start/end as (hour, minute), and the recurring flag. -/
structure Blackout where
  year : Nat
  month : Nat
  day : Nat
  startTime : Option (Nat × Nat)
  endTime : Option (Nat × Nat)
  isRecurringYearly : Bool
deriving DecidableEq, Repr

/-- One entry of the `get-slots` response (`AvailableSlot`); `stop` is
the `end` field (a Lean keyword). -/
structure AvailableSlot where
  start : Nat
  stop : Nat
  available : Bool
deriving DecidableEq, Repr

/-- luxon `Interval.fromDateTimes(s, e).overlaps`: an interval with
`e < s` is invalid and overlaps nothing; otherwise strict two-sided
comparison (an empty interval `[t, t)` strictly inside the other still
counts as overlapping, as luxon computes it). -/
def luxonOverlaps (s1 e1 s2 e2 : Nat) : Bool :=
  if e1 < s1 || e2 < s2 then false else s1 < e2 && s2 < e1

/-- The date-match test the service applies to a blackout row against
the day being generated: month and day equal, and year equal unless the
blackout recurs yearly. -/
def blackoutMatchesDay (b : Blackout) (day : Nat) : Bool :=
  let c := civilFromDays day
  b.month == c.2.1 && b.day == c.2.2 && (b.isRecurringYearly || b.year == c.1)

/-- `AvailabilityService.hasPartialBlackout` on day `day`: a matching
blackout with a start time whose wall-clock interval overlaps the slot.
A blackout without an end time parses to an invalid interval in the
source (NaN components) and never overlaps. -/
def hasPartialBlackout (slotStart slotEnd : Nat) (blackouts : List Blackout)
    (day : Nat) : Bool :=
  blackouts.any (fun b =>
    if blackoutMatchesDay b day then
      match b.startTime, b.endTime with
      | some bs, some be =>
        luxonOverlaps slotStart slotEnd
          (day * DAY_MS + (bs.1 * 60 + bs.2) * MINUTE_MS)
          (day * DAY_MS + (be.1 * 60 + be.2) * MINUTE_MS)
      | _, _ => false
    else false)

/-- `AvailabilityService.hasConflict`: the buffered candidate interval
against each loaded occupancy interval. -/
def hasConflict (bufferStart bufferEnd : Nat)
    (existingSlots : List (Nat × Nat)) : Bool :=
  existingSlots.any (fun e => luxonOverlaps bufferStart bufferEnd e.1 e.2)

/-- The `while` loop of `generateSlotsForRule`, stepping `slotStart` by
the duration while the candidate end stays within the rule end.  `fuel`
bounds the iteration count; `1441` covers every run with a positive
`duration_minutes` (the schema's check constraint), since a rule spans
at most 1440 minutes of its day.  Buffer subtraction is the luxon
`minus` on the absolute timeline (candidates lie decades after epoch,
so the `Nat` truncation at 0 is never reached in any run treated
here). -/
def slotLoop (fuel : Nat) (slotStart ruleEnd durMs bufB bufA minBooking : Nat)
    (day : Nat) (blackouts : List Blackout) (existingSlots : List (Nat × Nat)) :
    List AvailableSlot :=
  match fuel with
  | 0 => []
  | fuel + 1 =>
    if slotStart + durMs ≤ ruleEnd then
      let slotEnd := slotStart + durMs
      let rest := slotLoop fuel (slotStart + durMs) ruleEnd durMs bufB bufA
        minBooking day blackouts existingSlots
      if minBooking < slotStart then
        let bufferStart := slotStart - bufB
        let bufferEnd := slotEnd + bufA
        { start := slotStart
          stop := slotEnd
          available := !hasPartialBlackout slotStart slotEnd blackouts day &&
            !hasConflict bufferStart bufferEnd existingSlots } :: rest
      else rest
    else []

/-- `AvailabilityService.generateSlotsForRule` for epoch day `day`. -/
def generateSlotsForRule (day : Nat) (rule : ARule) (mt : MeetingType)
    (blackouts : List Blackout) (existingSlots : List (Nat × Nat))
    (minBookingTime : Nat) : List AvailableSlot :=
  let slotStart0 := day * DAY_MS + (rule.startHour * 60 + rule.startMinute) * MINUTE_MS
  let ruleEnd := day * DAY_MS + (rule.endHour * 60 + rule.endMinute) * MINUTE_MS
  slotLoop 1441 slotStart0 ruleEnd (mt.durationMinutes * MINUTE_MS)
    (mt.bufferBeforeMinutes * MINUTE_MS) (mt.bufferAfterMinutes * MINUTE_MS)
    minBookingTime day blackouts existingSlots

/-- `AvailabilityService.generateSlots`: iterate the days of
`[startDay, endDay]`, filter the rules per day by weekday and effective
range, skip fully blacked-out days, and concatenate each applicable
rule's slots in the rules' list order.  `now` is `DateTime.now()`;
the minimum booking lead is two hours. -/
def generateSlots (mt : MeetingType) (rules : List ARule)
    (blackouts : List Blackout) (existingSlots : List (Nat × Nat))
    (startDay endDay : Nat) (now : Nat) : List AvailableSlot :=
  let minBookingTime := now + 2 * 60 * MINUTE_MS
  (List.range' startDay (endDay + 1 - startDay)).flatMap (fun day =>
    let dow := dayOfWeekOf day
    let dayRules := rules.filter (fun r =>
      if day < r.effectiveFromDay then false
      else
        match r.effectiveUntilDay with
        | some u => if u < day then false else r.dayOfWeek == dow
        | none => r.dayOfWeek == dow)
    let isFullDayBlackout := blackouts.any (fun b =>
      blackoutMatchesDay b day && b.startTime.isNone)
    if isFullDayBlackout then []
    else dayRules.flatMap (fun r =>
      generateSlotsForRule day r mt blackouts existingSlots minBookingTime))

/-- `AvailabilityService.getExistingSlots`: the occupancy rows the
engine loads for the window — active holds and confirmed bookings of the
meeting type whose interval is CONTAINED in
`[startOf startDay, endOf endDay]` (`slot_start ≥` the window start and
`slot_end ≤` the window end, `endOf day` being `23:59:59.999`). -/
def getExistingSlots (st : DBState) (mtId : Nat) (startDay endDay : Nat) :
    List (Nat × Nat) :=
  let startDateTime := startDay * DAY_MS
  let endDateTime := endDay * DAY_MS + DAY_MS - 1
  (st.holds.filter (fun h =>
      h.meetingTypeId == mtId && h.status == HoldStatus.active &&
      startDateTime ≤ h.slotStart && h.slotEnd ≤ endDateTime)).map
    (fun h => (h.slotStart, h.slotEnd)) ++
  (st.bookings.filter (fun b =>
      b.meetingTypeId == mtId && b.status == BookingStatus.confirmed &&
      startDateTime ≤ b.slotStart && b.slotEnd ≤ endDateTime)).map
    (fun b => (b.slotStart, b.slotEnd))

/-- The occupancy selection as the specification words it (for the
refinement comparison of claim C6): active holds and confirmed bookings
whose `[slot_start, slot_end)` INTERSECTS the requested window expanded
by the meeting type's buffers. -/
def claimedOccupancy (st : DBState) (mtId : Nat) (startDay endDay : Nat)
    (bufferBeforeMin bufferAfterMin : Nat) : List (Nat × Nat) :=
  let windowStart := startDay * DAY_MS - bufferBeforeMin * MINUTE_MS
  let windowEnd := (endDay + 1) * DAY_MS + bufferAfterMin * MINUTE_MS
  (st.holds.filter (fun h =>
      h.meetingTypeId == mtId && h.status == HoldStatus.active &&
      rangesOverlap h.slotStart h.slotEnd windowStart windowEnd)).map
    (fun h => (h.slotStart, h.slotEnd)) ++
  (st.bookings.filter (fun b =>
      b.meetingTypeId == mtId && b.status == BookingStatus.confirmed &&
      rangesOverlap b.slotStart b.slotEnd windowStart windowEnd)).map
    (fun b => (b.slotStart, b.slotEnd))

/-! ## Reachable states

The states a deployment can be in: every state obtained from the empty
database by the state-changing entry points of the core.  Meeting types
and documents may be added with arbitrary field values (the admin CRUD
and `NdaService.createNdaDocument` are outside the core; allowing any
row there only strengthens the invariant theorems), and `publishEvent`
stands for any direct bus publish. -/

/-- The empty database. -/
def emptyState : DBState :=
  { meetingTypes := []
    holds := []
    bookings := []
    documents := []
    processedWebhooks := []
    events := [] }

/-- Reachability via the core's operations. -/
inductive Reachable : DBState → Prop where
  | empty : Reachable emptyState
  | addMeetingType (st : DBState) (mt : MeetingType) : Reachable st →
      Reachable { st with meetingTypes := st.meetingTypes ++ [mt] }
  | addDocument (st : DBState) (d : Document) : Reachable st →
      Reachable { st with documents := st.documents ++ [d] }
  | publishEvent (st : DBState) (e : BusEvent) : Reachable st →
      Reachable { st with events := st.events ++ [e] }
  | stepCreateHold (st : DBState) (now : Nat) (p : CreateHoldParams) (newId : Nat) :
      Reachable st → Reachable (createHold st now p newId).1
  | stepConfirmBooking (st : DBState) (now : Nat) (p : ConfirmBookingParams) (newId : Nat) :
      Reachable st → Reachable (confirmBooking st now p newId).1
  | stepReleaseHold (st : DBState) (holdId : Nat) (reason : ReleaseKind) :
      Reachable st → Reachable (releaseHold st holdId reason).1
  | stepExpireHolds (st : DBState) (now : Nat) :
      Reachable st → Reachable (expireHolds st now).1
  | stepExtendHold (st : DBState) (now holdId : Nat) :
      Reachable st → Reachable (extendHold st now holdId).1
  | stepCancelBooking (st : DBState) (bookingId : Nat) :
      Reachable st → Reachable (cancelBooking st bookingId).1
  | stepMarkAsCompleted (st : DBState) (bookingId : Nat) :
      Reachable st → Reachable (markAsCompleted st bookingId).1
  | stepMarkAsNoShow (st : DBState) (bookingId : Nat) :
      Reachable st → Reachable (markAsNoShow st bookingId).1
  | stepUpdateDocumentStatus (st : DBState) (documentId : Nat)
      (status : DocumentStatus) (extra : DocUpdateData) :
      Reachable st → Reachable (updateDocumentStatus st documentId status extra).1
  | stepWebhook (st : DBState) (now : Nat) (p : SignwellPayload) :
      Reachable st → Reachable (processSignwellWebhook st now p).1

/-- The relation two hold rows must satisfy: if both are active on the
same meeting type, their intervals do not overlap. -/
def HoldCompat (a b : SlotHold) : Prop :=
  a.meetingTypeId = b.meetingTypeId → a.status = .active → b.status = .active →
    rangesOverlap a.slotStart a.slotEnd b.slotStart b.slotEnd = false

/-- The relation two booking rows must satisfy: if both are confirmed on
the same meeting type, their intervals do not overlap. -/
def BookingCompat (a b : Booking) : Prop :=
  a.meetingTypeId = b.meetingTypeId → a.status = .confirmed → b.status = .confirmed →
    rangesOverlap a.slotStart a.slotEnd b.slotStart b.slotEnd = false

/-- Claim C1's invariant: pairwise disjointness of active holds and of
confirmed bookings, per meeting type. -/
def DisjointInvariant (st : DBState) : Prop :=
  st.holds.Pairwise HoldCompat ∧ st.bookings.Pairwise BookingCompat

/-- Claim C2's storage-layer invariant: distinct hold rows never share
an idempotency key. -/
def HoldKeysUnique (st : DBState) : Prop :=
  st.holds.Pairwise (fun a b => a.idempotencyKey ≠ b.idempotencyKey)

/-- The combined storage invariant the reachability induction carries. -/
def CoreInv (st : DBState) : Prop := DisjointInvariant st ∧ HoldKeysUnique st

/-- Recognizer for `slot.held` events (for counting bus traffic). -/
def isSlotHeld : BusEvent → Bool
  | .slotHeld _ _ _ _ => true
  | _ => false

/-- Recognizer for `slot.released` events. -/
def isSlotReleased : BusEvent → Bool
  | .slotReleased _ _ _ _ _ => true
  | _ => false

/-! ## Helper lemmas -/

theorem rangesOverlap_comm (s1 e1 s2 e2 : Nat) :
    rangesOverlap s1 e1 s2 e2 = rangesOverlap s2 e2 s1 e1 := by
  simp only [rangesOverlap]
  by_cases h1 : s1 < e1 <;> by_cases h2 : s2 < e2 <;>
    by_cases h3 : s1 < e2 <;> by_cases h4 : s2 < e1 <;> simp [h1, h2, h3, h4]

/-- `rangesOverlap` decides nonempty intersection of the half-open
intervals. -/
theorem rangesOverlap_iff (s1 e1 s2 e2 : Nat) :
    rangesOverlap s1 e1 s2 e2 = true ↔ ∃ t, (s1 ≤ t ∧ t < e1) ∧ (s2 ≤ t ∧ t < e2) := by
  constructor
  · intro h
    simp only [rangesOverlap, Bool.and_eq_true, decide_eq_true_eq] at h
    obtain ⟨⟨⟨h1, h2⟩, h3⟩, h4⟩ := h
    exact ⟨max s1 s2, ⟨le_max_left _ _, max_lt h1 h4⟩,
      ⟨le_max_right _ _, max_lt h3 h2⟩⟩
  · rintro ⟨t, ⟨h1, h2⟩, h3, h4⟩
    simp only [rangesOverlap, Bool.and_eq_true, decide_eq_true_eq]
    exact ⟨⟨⟨lt_of_le_of_lt h1 h2, lt_of_le_of_lt h3 h4⟩,
      lt_of_le_of_lt h1 h4⟩, lt_of_le_of_lt h3 h2⟩


/-- A hold-row rewrite that keeps meeting type, interval and key, and
never resurrects a non-active row, preserves `HoldCompat` pairwise. -/
theorem pairwise_holdCompat_map {g : SlotHold → SlotHold}
    (hmt : ∀ h, (g h).meetingTypeId = h.meetingTypeId)
    (hs : ∀ h, (g h).slotStart = h.slotStart)
    (he : ∀ h, (g h).slotEnd = h.slotEnd)
    (hst : ∀ h, (g h).status = HoldStatus.active → h.status = HoldStatus.active)
    {l : List SlotHold} (hl : l.Pairwise HoldCompat) :
    (l.map g).Pairwise HoldCompat := by
  refine hl.map g ?_
  intro a b hab h1 h2 h3
  rw [hmt, hmt] at h1
  rw [hs, hs, he, he]
  exact hab h1 (hst a h2) (hst b h3)

/-- A hold-row rewrite that keeps the idempotency key preserves key
distinctness pairwise. -/
theorem pairwise_holdKeys_map {g : SlotHold → SlotHold}
    (hk : ∀ h, (g h).idempotencyKey = h.idempotencyKey)
    {l : List SlotHold}
    (hl : l.Pairwise (fun a b => a.idempotencyKey ≠ b.idempotencyKey)) :
    (l.map g).Pairwise (fun a b => a.idempotencyKey ≠ b.idempotencyKey) := by
  refine hl.map g ?_
  intro a b hab
  rw [hk, hk]
  exact hab

/-- A booking-row rewrite that keeps meeting type and interval and never
resurrects a non-confirmed row preserves `BookingCompat` pairwise. -/
theorem pairwise_bookingCompat_map {g : Booking → Booking}
    (hmt : ∀ b, (g b).meetingTypeId = b.meetingTypeId)
    (hs : ∀ b, (g b).slotStart = b.slotStart)
    (he : ∀ b, (g b).slotEnd = b.slotEnd)
    (hst : ∀ b, (g b).status = BookingStatus.confirmed → b.status = BookingStatus.confirmed)
    {l : List Booking} (hl : l.Pairwise BookingCompat) :
    (l.map g).Pairwise BookingCompat := by
  refine hl.map g ?_
  intro a b hab h1 h2 h3
  rw [hmt, hmt] at h1
  rw [hs, hs, he, he]
  exact hab h1 (hst a h2) (hst b h3)

/-- `CoreInv` only inspects holds and bookings. -/
theorem coreInv_of_eq {st st' : DBState} (hh : st'.holds = st.holds)
    (hb : st'.bookings = st.bookings) (h : CoreInv st) : CoreInv st' := by
  obtain ⟨⟨h1, h2⟩, h3⟩ := h
  refine ⟨⟨?_, ?_⟩, ?_⟩
  · rw [hh]; exact h1
  · rw [hb]; exact h2
  · rw [HoldKeysUnique, hh]; exact h3

/-- `CoreInv` is preserved by a compatible rewrite of the holds table. -/
theorem coreInv_mapHolds {st st' : DBState} (h : CoreInv st) {g : SlotHold → SlotHold}
    (hmt : ∀ h, (g h).meetingTypeId = h.meetingTypeId)
    (hs : ∀ h, (g h).slotStart = h.slotStart)
    (he : ∀ h, (g h).slotEnd = h.slotEnd)
    (hst : ∀ h, (g h).status = HoldStatus.active → h.status = HoldStatus.active)
    (hk : ∀ h, (g h).idempotencyKey = h.idempotencyKey)
    (hh : st'.holds = st.holds.map g) (hb : st'.bookings = st.bookings) :
    CoreInv st' := by
  obtain ⟨⟨h1, h2⟩, h3⟩ := h
  refine ⟨⟨?_, ?_⟩, ?_⟩
  · rw [hh]; exact pairwise_holdCompat_map hmt hs he hst h1
  · rw [hb]; exact h2
  · rw [HoldKeysUnique, hh]; exact pairwise_holdKeys_map hk h3

/-- `CoreInv` is preserved by a compatible rewrite of the bookings table. -/
theorem coreInv_mapBookings {st st' : DBState} (h : CoreInv st) {g : Booking → Booking}
    (hmt : ∀ b, (g b).meetingTypeId = b.meetingTypeId)
    (hs : ∀ b, (g b).slotStart = b.slotStart)
    (he : ∀ b, (g b).slotEnd = b.slotEnd)
    (hst : ∀ b, (g b).status = BookingStatus.confirmed → b.status = BookingStatus.confirmed)
    (hh : st'.holds = st.holds) (hb : st'.bookings = st.bookings.map g) :
    CoreInv st' := by
  obtain ⟨⟨h1, h2⟩, h3⟩ := h
  refine ⟨⟨?_, ?_⟩, ?_⟩
  · rw [hh]; exact h1
  · rw [hb]; exact pairwise_bookingCompat_map hmt hs he hst h2
  · rw [HoldKeysUnique, hh]; exact h3

/-- `releaseHold` preserves the storage invariant. -/
theorem releaseHold_coreInv (st : DBState) (holdId : Nat) (reason : ReleaseKind)
    (h : CoreInv st) : CoreInv (releaseHold st holdId reason).1 := by
  unfold releaseHold
  cases hfind : st.holds.find? (fun h => h.id == holdId && h.status == HoldStatus.active) with
  | none => exact h
  | some hold =>
    dsimp only
    refine coreInv_mapHolds h ?_ ?_ ?_ ?_ ?_ rfl rfl
    case _ => intro x; dsimp only; split <;> rfl
    case _ => intro x; dsimp only; split <;> rfl
    case _ => intro x; dsimp only; split <;> rfl
    case _ =>
      intro x; dsimp only; split
      · intro hx; cases reason <;> simp_all
      · intro hx; exact hx
    case _ => intro x; dsimp only; split <;> rfl

/-- `expireHolds` preserves the storage invariant. -/
theorem expireHolds_coreInv (st : DBState) (now : Nat)
    (h : CoreInv st) : CoreInv (expireHolds st now).1 := by
  unfold expireHolds
  refine coreInv_mapHolds h ?_ ?_ ?_ ?_ ?_ rfl rfl
  case _ => intro x; dsimp only; split <;> rfl
  case _ => intro x; dsimp only; split <;> rfl
  case _ => intro x; dsimp only; split <;> rfl
  case _ =>
    intro x; dsimp only; split
    · intro hx; simp_all
    · intro hx; exact hx
  case _ => intro x; dsimp only; split <;> rfl

/-- `extendHold` preserves the storage invariant. -/
theorem extendHold_coreInv (st : DBState) (now holdId : Nat)
    (h : CoreInv st) : CoreInv (extendHold st now holdId).1 := by
  unfold extendHold
  cases hfind : st.holds.find? (fun h => h.id == holdId && h.status == HoldStatus.active) with
  | none => exact h
  | some hold =>
    dsimp only
    refine coreInv_mapHolds h ?_ ?_ ?_ ?_ ?_ rfl rfl
    case _ => intro x; dsimp only; split <;> rfl
    case _ => intro x; dsimp only; split <;> rfl
    case _ => intro x; dsimp only; split <;> rfl
    case _ => intro x; dsimp only; split <;> exact fun hx => hx
    case _ => intro x; dsimp only; split <;> rfl

/-- `cancelBooking` preserves the storage invariant. -/
theorem cancelBooking_coreInv (st : DBState) (bookingId : Nat)
    (h : CoreInv st) : CoreInv (cancelBooking st bookingId).1 := by
  unfold cancelBooking
  cases hfind : st.bookings.find? (fun b => b.id == bookingId && b.status == BookingStatus.confirmed) with
  | none => exact h
  | some booking =>
    dsimp only
    refine coreInv_mapBookings h ?_ ?_ ?_ ?_ rfl rfl
    case _ => intro x; dsimp only; split <;> rfl
    case _ => intro x; dsimp only; split <;> rfl
    case _ => intro x; dsimp only; split <;> rfl
    case _ =>
      intro x; dsimp only; split
      · intro hx; simp_all
      · intro hx; exact hx

/-- `markAsCompleted` preserves the storage invariant. -/
theorem markAsCompleted_coreInv (st : DBState) (bookingId : Nat)
    (h : CoreInv st) : CoreInv (markAsCompleted st bookingId).1 := by
  unfold markAsCompleted
  cases hfind : st.bookings.find? (fun b => b.id == bookingId && b.status == BookingStatus.confirmed) with
  | none => exact h
  | some booking =>
    dsimp only
    refine coreInv_mapBookings h ?_ ?_ ?_ ?_ rfl rfl
    case _ => intro x; dsimp only; split <;> rfl
    case _ => intro x; dsimp only; split <;> rfl
    case _ => intro x; dsimp only; split <;> rfl
    case _ =>
      intro x; dsimp only; split
      · intro hx; simp_all
      · intro hx; exact hx

/-- `markAsNoShow` preserves the storage invariant. -/
theorem markAsNoShow_coreInv (st : DBState) (bookingId : Nat)
    (h : CoreInv st) : CoreInv (markAsNoShow st bookingId).1 := by
  unfold markAsNoShow
  cases hfind : st.bookings.find? (fun b => b.id == bookingId && b.status == BookingStatus.confirmed) with
  | none => exact h
  | some booking =>
    dsimp only
    refine coreInv_mapBookings h ?_ ?_ ?_ ?_ rfl rfl
    case _ => intro x; dsimp only; split <;> rfl
    case _ => intro x; dsimp only; split <;> rfl
    case _ => intro x; dsimp only; split <;> rfl
    case _ =>
      intro x; dsimp only; split
      · intro hx; simp_all
      · intro hx; exact hx

/-- `updateDocumentStatus` leaves holds and bookings unchanged. -/
theorem updateDocumentStatus_coreInv (st : DBState) (documentId : Nat)
    (status : DocumentStatus) (extra : DocUpdateData)
    (h : CoreInv st) : CoreInv (updateDocumentStatus st documentId status extra).1 := by
  unfold updateDocumentStatus
  cases hfind : st.documents.find? (fun d => d.id == documentId) with
  | none => exact h
  | some doc => exact coreInv_of_eq rfl rfl h

/-- `signwellDispatch` touches only documents and events. -/
theorem signwellDispatch_holds (st : DBState) (now : Nat) (p : SignwellPayload) :
    (signwellDispatch st now p).holds = st.holds := by
  unfold signwellDispatch
  repeat' split
  all_goals dsimp only
  all_goals repeat' split
  all_goals rfl

/-- `signwellDispatch` touches only documents and events. -/
theorem signwellDispatch_bookings (st : DBState) (now : Nat) (p : SignwellPayload) :
    (signwellDispatch st now p).bookings = st.bookings := by
  unfold signwellDispatch
  repeat' split
  all_goals dsimp only
  all_goals repeat' split
  all_goals rfl

/-- The webhook handler touches only documents, webhook records and
events. -/
theorem processSignwellWebhook_holds (st : DBState) (now : Nat) (p : SignwellPayload) :
    (processSignwellWebhook st now p).1.holds = st.holds := by
  unfold processSignwellWebhook
  dsimp only
  split
  · split
    · rfl
    · exact signwellDispatch_holds _ _ _
  · exact signwellDispatch_holds _ _ _

/-- The webhook handler touches only documents, webhook records and
events. -/
theorem processSignwellWebhook_bookings (st : DBState) (now : Nat) (p : SignwellPayload) :
    (processSignwellWebhook st now p).1.bookings = st.bookings := by
  unfold processSignwellWebhook
  dsimp only
  split
  · split
    · rfl
    · exact signwellDispatch_bookings _ _ _
  · exact signwellDispatch_bookings _ _ _

/-- `createHold` preserves the storage invariant: the insert happens only
after the in-transaction conflict check (and the idempotency check)
found no overlapping active hold and no row with the key. -/
theorem createHold_coreInv (st : DBState) (now : Nat) (p : CreateHoldParams)
    (newId : Nat) (h : CoreInv st) : CoreInv (createHold st now p newId).1 := by
  unfold createHold
  cases hkey : st.holds.find? (fun h => h.idempotencyKey == p.idempotencyKey) with
  | some existing =>
    dsimp only
    split <;> exact h
  | none =>
    dsimp only
    cases hmt : st.meetingTypes.find? (fun mt => mt.id == p.meetingTypeId && mt.isActive) with
    | none => exact h
    | some mt =>
      dsimp only
      cases hc : st.holds.find? (fun h =>
          h.meetingTypeId == p.meetingTypeId && h.status == HoldStatus.active &&
          rangesOverlap h.slotStart h.slotEnd p.slotStart p.slotEnd) with
      | some _ => exact h
      | none =>
        dsimp only
        cases hbc : st.bookings.find? (fun b =>
            b.meetingTypeId == p.meetingTypeId && b.status == BookingStatus.confirmed &&
            rangesOverlap b.slotStart b.slotEnd p.slotStart p.slotEnd) with
        | some _ => exact h
        | none =>
          dsimp only
          obtain ⟨⟨h1, h2⟩, h3⟩ := h
          refine ⟨⟨?_, h2⟩, ?_⟩
          · rw [List.pairwise_append]
            refine ⟨h1, by simp, ?_⟩
            intro a ha b hb
            simp only [List.mem_singleton] at hb
            subst hb
            intro hmtEq hact1 _
            by_contra hov
            rw [Bool.not_eq_false] at hov
            exact List.find?_eq_none.mp hc a ha (by
              simp only [Bool.and_eq_true]
              exact ⟨⟨by simpa using hmtEq, by simp [hact1]⟩, hov⟩)
          · rw [HoldKeysUnique]
            rw [List.pairwise_append]
            refine ⟨h3, by simp, ?_⟩
            intro a ha b hb
            simp only [List.mem_singleton] at hb
            subst hb
            have hpred := List.find?_eq_none.mp hkey a ha
            simpa using hpred

/-- `confirmBooking` preserves the storage invariant: the booking insert
is guarded by the `no_double_booking` exclusion semantics, the hold
update never resurrects a row, and failures leave the state unchanged
(apart from the expiry marking, which is itself a compatible rewrite). -/
theorem confirmBooking_coreInv (st : DBState) (now : Nat) (p : ConfirmBookingParams)
    (newBookingId : Nat) (h : CoreInv st) : CoreInv (confirmBooking st now p newBookingId).1 := by
  unfold confirmBooking
  cases hkey : st.bookings.find? (fun b => b.idempotencyKey == p.idempotencyKey) with
  | some existing => exact h
  | none =>
    dsimp only
    cases hhold : st.holds.find? (fun h => h.id == p.holdId) with
    | none => exact h
    | some hold =>
      dsimp only
      split
      · exact h
      · split
        · -- expiry marking inside the transaction
          refine coreInv_mapHolds h ?_ ?_ ?_ ?_ ?_ rfl rfl
          case _ => intro x; dsimp only; split <;> rfl
          case _ => intro x; dsimp only; split <;> rfl
          case _ => intro x; dsimp only; split <;> rfl
          case _ =>
            intro x; dsimp only; split
            · intro hx; simp_all
            · intro hx; exact hx
          case _ => intro x; dsimp only; split <;> rfl
        · cases hmt : st.meetingTypes.find? (fun mt => mt.id == hold.meetingTypeId) with
          | none => exact h
          | some meetingType =>
            dsimp only
            split
            · exact h
            · split
              · exact h
              · -- success: append the booking, convert the hold, link docs
                rename_i hcNoConflict
                obtain ⟨⟨h1, h2⟩, h3⟩ := h
                rw [Option.not_isSome_iff_eq_none] at hcNoConflict
                refine ⟨⟨?_, ?_⟩, ?_⟩
                · refine pairwise_holdCompat_map ?_ ?_ ?_ ?_ h1
                  case _ => intro x; dsimp only; split <;> rfl
                  case _ => intro x; dsimp only; split <;> rfl
                  case _ => intro x; dsimp only; split <;> rfl
                  case _ =>
                    intro x; dsimp only; split
                    · intro hx; simp_all
                    · intro hx; exact hx
                · rw [List.pairwise_append]
                  refine ⟨h2, by simp, ?_⟩
                  intro a ha b hb
                  simp only [List.mem_singleton] at hb
                  subst hb
                  intro hmtEq hconf1 _
                  by_contra hov
                  rw [Bool.not_eq_false] at hov
                  exact List.find?_eq_none.mp hcNoConflict a ha (by
                    simp only [Bool.and_eq_true]
                    exact ⟨⟨by simpa using hmtEq, by simp [hconf1]⟩, hov⟩)
                · rw [HoldKeysUnique]
                  refine pairwise_holdKeys_map ?_ h3
                  intro x; dsimp only; split <;> rfl

/-- `signwellDispatch` leaves the webhook-idempotency table unchanged. -/
theorem signwellDispatch_processedWebhooks (st : DBState) (now : Nat) (p : SignwellPayload) :
    (signwellDispatch st now p).processedWebhooks = st.processedWebhooks := by
  unfold signwellDispatch
  repeat' split
  all_goals dsimp only
  all_goals repeat' split
  all_goals rfl

/-- `signwellDispatch` leaves meeting types unchanged. -/
theorem signwellDispatch_meetingTypes (st : DBState) (now : Nat) (p : SignwellPayload) :
    (signwellDispatch st now p).meetingTypes = st.meetingTypes := by
  unfold signwellDispatch
  repeat' split
  all_goals dsimp only
  all_goals repeat' split
  all_goals rfl

/-- Every reachable state satisfies the storage invariant. -/
theorem reachable_coreInv {st : DBState} (h : Reachable st) : CoreInv st := by
  induction h with
  | empty => exact ⟨⟨List.Pairwise.nil, List.Pairwise.nil⟩, List.Pairwise.nil⟩
  | addMeetingType st mt _ ih => exact coreInv_of_eq rfl rfl ih
  | addDocument st d _ ih => exact coreInv_of_eq rfl rfl ih
  | publishEvent st e _ ih => exact coreInv_of_eq rfl rfl ih
  | stepCreateHold st now p newId _ ih => exact createHold_coreInv st now p newId ih
  | stepConfirmBooking st now p newId _ ih => exact confirmBooking_coreInv st now p newId ih
  | stepReleaseHold st holdId reason _ ih => exact releaseHold_coreInv st holdId reason ih
  | stepExpireHolds st now _ ih => exact expireHolds_coreInv st now ih
  | stepExtendHold st now holdId _ ih => exact extendHold_coreInv st now holdId ih
  | stepCancelBooking st bookingId _ ih => exact cancelBooking_coreInv st bookingId ih
  | stepMarkAsCompleted st bookingId _ ih => exact markAsCompleted_coreInv st bookingId ih
  | stepMarkAsNoShow st bookingId _ ih => exact markAsNoShow_coreInv st bookingId ih
  | stepUpdateDocumentStatus st documentId status extra _ ih =>
    exact updateDocumentStatus_coreInv st documentId status extra ih
  | stepWebhook st now p _ ih =>
    exact coreInv_of_eq (processSignwellWebhook_holds st now p)
      (processSignwellWebhook_bookings st now p) ih

/-! ## Claim theorems -/

/-- C1: In every reachable database state, any two distinct rows of the
holds table with status `active` and the same meeting-type id have
disjoint half-open `[slot_start, slot_end)` intervals, and any two
distinct rows of the bookings table with status `confirmed` and the
same meeting-type id have disjoint intervals; every operation
(`create_hold`, `confirm_booking`, release, the expiration sweep,
cancellation — the constructors of `Reachable`) preserves both
disjointness properties. -/
theorem c1_no_overlap_invariant (st : DBState) (h : Reachable st) :
    DisjointInvariant st :=
  (reachable_coreInv h).1

/-- Witness for C1: the invariant holds in the concrete state reached by
creating a meeting type and then a hold. -/
theorem c1_no_overlap_invariant_witness :
    DisjointInvariant (createHold
      ⟨[⟨1, 2, "intro", 30, 0, 0, false, true⟩], [], [], [], [], []⟩
      1000 ⟨1, 5000, 6000, "a@b.c", none, 42⟩ 7).1 :=
  c1_no_overlap_invariant _
    (Reachable.stepCreateHold _ 1000 ⟨1, 5000, 6000, "a@b.c", none, 42⟩ 7
      (Reachable.addMeetingType emptyState ⟨1, 2, "intro", 30, 0, 0, false, true⟩
        Reachable.empty))

/-- C2: a `create_hold` call whose idempotency key matches a stored hold
returns that hold's id and `expires_at` when the hold is still active,
fails with `Previous hold expired` otherwise, and in both cases inserts
no row (the state is unchanged); and in every reachable state at most
one hold row exists per idempotency key. -/
theorem c2_createHold_idempotency (st : DBState) (hr : Reachable st)
    (now : Nat) (p : CreateHoldParams) (newId : Nat) (ex : SlotHold)
    (hfind : st.holds.find? (fun h => h.idempotencyKey == p.idempotencyKey) = some ex) :
    (ex.status = .active →
      createHold st now p newId = (st, ⟨true, some ex.id, some ex.expiresAt, none⟩)) ∧
    (ex.status ≠ .active →
      createHold st now p newId = (st, ⟨false, none, none, some "Previous hold expired"⟩)) ∧
    HoldKeysUnique st := by
  refine ⟨?_, ?_, (reachable_coreInv hr).2⟩
  · intro hact
    unfold createHold
    rw [hfind]
    dsimp only
    rw [if_pos hact]
  · intro hnact
    unfold createHold
    rw [hfind]
    dsimp only
    rw [if_neg hnact]

/-- Witness for C2: replaying the same key against the concrete state
that stores the hold returns the stored id and expiry and changes
nothing. -/
theorem c2_createHold_idempotency_witness :
    createHold (createHold
        ⟨[⟨1, 2, "intro", 30, 0, 0, false, true⟩], [], [], [], [], []⟩
        1000 ⟨1, 5000, 6000, "a@b.c", none, 42⟩ 7).1
      2000 ⟨1, 5000, 6000, "a@b.c", none, 42⟩ 9 =
      ((createHold ⟨[⟨1, 2, "intro", 30, 0, 0, false, true⟩], [], [], [], [], []⟩
        1000 ⟨1, 5000, 6000, "a@b.c", none, 42⟩ 7).1,
       ⟨true, some 7, some 901000, none⟩) ∧
    HoldKeysUnique (createHold
        ⟨[⟨1, 2, "intro", 30, 0, 0, false, true⟩], [], [], [], [], []⟩
        1000 ⟨1, 5000, 6000, "a@b.c", none, 42⟩ 7).1 := by
  have h := c2_createHold_idempotency
    (createHold ⟨[⟨1, 2, "intro", 30, 0, 0, false, true⟩], [], [], [], [], []⟩
      1000 ⟨1, 5000, 6000, "a@b.c", none, 42⟩ 7).1
    (Reachable.stepCreateHold _ 1000 ⟨1, 5000, 6000, "a@b.c", none, 42⟩ 7
      (Reachable.addMeetingType emptyState ⟨1, 2, "intro", 30, 0, 0, false, true⟩
        Reachable.empty))
    2000 ⟨1, 5000, 6000, "a@b.c", none, 42⟩ 9
    ⟨7, 1, 5000, 6000, "a@b.c", none, .active, 901000, 42⟩
    (by decide)
  exact ⟨h.1 rfl, h.2.2⟩

/-- Counterexample for C3: when a booking with the call's idempotency
key already exists, `confirm_booking` on a missing hold does NOT fail —
the idempotent-replay short-circuit returns the stored booking before
the hold is ever loaded. -/
theorem c3_confirmBooking_counterexample :
    (confirmBooking
        ⟨[], [], [⟨11, 1, 2, 5000, 6000, "g@h.i", "G", "UTC", none, .confirmed, 7, none⟩],
          [], [], []⟩
        0 ⟨99, "G", "UTC", none, 7⟩ 50).2.success = true ∧
    (⟨[], [], [⟨11, 1, 2, 5000, 6000, "g@h.i", "G", "UTC", none, .confirmed, 7, none⟩],
        [], [], []⟩ : DBState).holds.find? (fun h => h.id == 99) = none := by
  decide

/-- C3 (amended): for a `confirm_booking` call whose idempotency key is
not already stored: a missing hold fails with `Hold not found`; a
non-active hold fails with `Hold is <status>`; an active hold past its
expiry is marked `expired` inside the transaction and the call fails
with `Hold has expired`, inserting no booking; and when the insert
would violate the `no_double_booking` exclusion constraint the caller
receives `Slot already booked` with no state change. -/
theorem c3_confirmBooking_failures (st : DBState) (now : Nat)
    (p : ConfirmBookingParams) (newId : Nat)
    (hkey : st.bookings.find? (fun b => b.idempotencyKey == p.idempotencyKey) = none) :
    (st.holds.find? (fun h => h.id == p.holdId) = none →
      confirmBooking st now p newId = (st, ⟨false, none, some "Hold not found"⟩)) ∧
    (∀ hold, st.holds.find? (fun h => h.id == p.holdId) = some hold →
      hold.status ≠ .active →
      confirmBooking st now p newId =
        (st, ⟨false, none, some ("Hold is " ++ holdStatusText hold.status)⟩)) ∧
    (∀ hold, st.holds.find? (fun h => h.id == p.holdId) = some hold →
      hold.status = .active → hold.expiresAt < now →
      confirmBooking st now p newId =
        ({ st with holds := st.holds.map (fun h =>
            if h.id == p.holdId then { h with status := HoldStatus.expired } else h) },
         ⟨false, none, some "Hold has expired"⟩)) ∧
    (∀ hold mt, st.holds.find? (fun h => h.id == p.holdId) = some hold →
      hold.status = .active → ¬ hold.expiresAt < now →
      st.meetingTypes.find? (fun m => m.id == hold.meetingTypeId) = some mt →
      (mt.requiresNda = false ∨
        (st.documents.find? (fun d =>
          d.holdId == some p.holdId && d.status == .signed)).isSome) →
      (st.bookings.find? (fun b =>
        b.meetingTypeId == hold.meetingTypeId && b.status == .confirmed &&
        rangesOverlap b.slotStart b.slotEnd hold.slotStart hold.slotEnd)).isSome →
      confirmBooking st now p newId = (st, ⟨false, none, some "Slot already booked"⟩)) := by
  refine ⟨?_, ?_, ?_, ?_⟩
  · intro hnone
    unfold confirmBooking
    rw [hkey, hnone]
  · intro hold hfind hnact
    unfold confirmBooking
    rw [hkey, hfind]
    dsimp only
    rw [if_pos hnact]
  · intro hold hfind hact hexp
    unfold confirmBooking
    rw [hkey, hfind]
    dsimp only
    rw [if_neg (by simp [hact]), if_pos hexp]
  · intro hold mt hfind hact hnexp hmt hnda hconf
    unfold confirmBooking
    rw [hkey, hfind]
    dsimp only
    rw [if_neg (by simp [hact]), if_neg hnexp, hmt]
    dsimp only
    rw [if_neg (by
      rcases hnda with hn | hs
      · simp [hn]
      · simp only [Bool.and_eq_true, not_and]
        intro _
        simp only [Option.isNone_iff_eq_none]
        intro hnone
        rw [hnone] at hs
        simp at hs), if_pos hconf]

/-- Witness for C3: a concrete overlapping confirmed booking makes the
confirm fail with `Slot already booked` and no state change. -/
theorem c3_confirmBooking_failures_witness :
    confirmBooking
      ⟨[⟨1, 2, "intro", 30, 0, 0, false, true⟩],
        [⟨8, 1, 5000, 6000, "a@b.c", none, .active, 1000000, 42⟩],
        [⟨11, 1, 2, 5500, 6500, "g@h.i", "G", "UTC", none, .confirmed, 77, none⟩],
        [], [], []⟩
      1000 ⟨8, "G", "UTC", none, 7⟩ 50 =
    (⟨[⟨1, 2, "intro", 30, 0, 0, false, true⟩],
        [⟨8, 1, 5000, 6000, "a@b.c", none, .active, 1000000, 42⟩],
        [⟨11, 1, 2, 5500, 6500, "g@h.i", "G", "UTC", none, .confirmed, 77, none⟩],
        [], [], []⟩,
      ⟨false, none, some "Slot already booked"⟩) :=
  ((c3_confirmBooking_failures _ 1000 ⟨8, "G", "UTC", none, 7⟩ 50
      (by decide)).2.2.2)
    ⟨8, 1, 5000, 6000, "a@b.c", none, .active, 1000000, 42⟩
    ⟨1, 2, "intro", 30, 0, 0, false, true⟩
    (by decide) (by decide) (by decide) (by decide) (Or.inl (by decide)) (by decide)

/-- Counterexample for C4: an active unexpired hold on an NDA-requiring
meeting type with a signed document still does NOT get its booking
inserted when a conflicting confirmed booking exists — the exclusion
constraint aborts the insert with `Slot already booked`. -/
theorem c4_nda_counterexample :
    confirmBooking
      ⟨[⟨3, 2, "nda-call", 30, 0, 0, true, true⟩],
        [⟨8, 3, 5000, 6000, "a@b.c", none, .active, 1000000, 42⟩],
        [⟨11, 3, 2, 5500, 6500, "g@h.i", "G", "UTC", none, .confirmed, 77, none⟩],
        [⟨21, some 8, none, .signed, "a@b.c", none, none, some 500, none⟩],
        [], []⟩
      1000 ⟨8, "G", "UTC", none, 7⟩ 50 =
    (⟨[⟨3, 2, "nda-call", 30, 0, 0, true, true⟩],
        [⟨8, 3, 5000, 6000, "a@b.c", none, .active, 1000000, 42⟩],
        [⟨11, 3, 2, 5500, 6500, "g@h.i", "G", "UTC", none, .confirmed, 77, none⟩],
        [⟨21, some 8, none, .signed, "a@b.c", none, none, some 500, none⟩],
        [], []⟩,
      ⟨false, none, some "Slot already booked"⟩) ∧
    ((⟨[⟨3, 2, "nda-call", 30, 0, 0, true, true⟩],
        [⟨8, 3, 5000, 6000, "a@b.c", none, .active, 1000000, 42⟩],
        [⟨11, 3, 2, 5500, 6500, "g@h.i", "G", "UTC", none, .confirmed, 77, none⟩],
        [⟨21, some 8, none, .signed, "a@b.c", none, none, some 500, none⟩],
        [], []⟩ : DBState).documents.find? (fun d =>
          d.holdId == some 8 && d.status == .signed)).isSome = true := by
  decide

/-- C4 (amended): for a `confirm_booking` call with a fresh idempotency
key on an active, unexpired hold whose meeting type has
`requires_nda = true`: without a signed document for the hold the call
fails with `NDA must be signed before booking` and changes nothing;
with a signed document — provided no confirmed booking overlaps the
hold's slot (else the exclusion constraint aborts with
`Slot already booked`, see C3) — the booking is inserted with status
`confirmed`, the hold is transitioned to `converted`, and every
document of the hold is linked to the new booking, in one
transaction. -/
theorem c4_nda_gating (st : DBState) (now : Nat) (p : ConfirmBookingParams)
    (newId : Nat)
    (hkey : st.bookings.find? (fun b => b.idempotencyKey == p.idempotencyKey) = none)
    (hold : SlotHold)
    (hfind : st.holds.find? (fun h => h.id == p.holdId) = some hold)
    (hact : hold.status = .active) (hnexp : ¬ hold.expiresAt < now)
    (mt : MeetingType)
    (hmt : st.meetingTypes.find? (fun m => m.id == hold.meetingTypeId) = some mt)
    (hnda : mt.requiresNda = true) :
    ((st.documents.find? (fun d =>
        d.holdId == some p.holdId && d.status == .signed)) = none →
      confirmBooking st now p newId =
        (st, ⟨false, none, some "NDA must be signed before booking"⟩)) ∧
    (∀ doc, (st.documents.find? (fun d =>
        d.holdId == some p.holdId && d.status == .signed)) = some doc →
      (st.bookings.find? (fun b =>
        b.meetingTypeId == hold.meetingTypeId && b.status == .confirmed &&
        rangesOverlap b.slotStart b.slotEnd hold.slotStart hold.slotEnd)) = none →
      confirmBooking st now p newId =
        ({ st with
            bookings := st.bookings ++
              [{ id := newId
                 meetingTypeId := hold.meetingTypeId
                 hostUserId := mt.ownerId
                 slotStart := hold.slotStart
                 slotEnd := hold.slotEnd
                 guestEmail := hold.heldByEmail
                 guestName := p.guestName
                 guestTimezone := p.guestTimezone
                 guestNotes := p.guestNotes
                 status := .confirmed
                 idempotencyKey := p.idempotencyKey
                 fromHoldId := some p.holdId }]
            holds := st.holds.map (fun h =>
              if h.id == p.holdId then { h with status := HoldStatus.converted } else h)
            documents := st.documents.map (fun d =>
              if d.holdId == some p.holdId then { d with bookingId := some newId } else d) },
         ⟨true, some
           { id := newId
             meetingTypeId := hold.meetingTypeId
             hostUserId := mt.ownerId
             slotStart := hold.slotStart
             slotEnd := hold.slotEnd
             guestEmail := hold.heldByEmail
             guestName := p.guestName
             guestTimezone := p.guestTimezone
             guestNotes := p.guestNotes
             status := .confirmed
             idempotencyKey := p.idempotencyKey
             fromHoldId := some p.holdId }, none⟩)) := by
  constructor
  · intro hnone
    unfold confirmBooking
    rw [hkey, hfind]
    dsimp only
    rw [if_neg (by simp [hact]), if_neg hnexp, hmt]
    dsimp only
    rw [if_pos (by simp [hnda, hnone])]
  · intro doc hdoc hnoconf
    unfold confirmBooking
    rw [hkey, hfind]
    dsimp only
    rw [if_neg (by simp [hact]), if_neg hnexp, hmt]
    dsimp only
    rw [if_neg (by simp [hdoc]), if_neg (by simp [hnoconf])]

/-- Witness for C4: with a signed document and a free slot, the concrete
confirm inserts the booking, converts the hold and links the
document. -/
theorem c4_nda_gating_witness :
    confirmBooking
      ⟨[⟨3, 2, "nda-call", 30, 0, 0, true, true⟩],
        [⟨8, 3, 5000, 6000, "a@b.c", none, .active, 1000000, 42⟩],
        [],
        [⟨21, some 8, none, .signed, "a@b.c", none, none, some 500, none⟩],
        [], []⟩
      1000 ⟨8, "G", "UTC", none, 7⟩ 50 =
    (⟨[⟨3, 2, "nda-call", 30, 0, 0, true, true⟩],
        [⟨8, 3, 5000, 6000, "a@b.c", none, .converted, 1000000, 42⟩],
        [⟨50, 3, 2, 5000, 6000, "a@b.c", "G", "UTC", none, .confirmed, 7, some 8⟩],
        [⟨21, some 8, some 50, .signed, "a@b.c", none, none, some 500, none⟩],
        [], []⟩,
      ⟨true, some ⟨50, 3, 2, 5000, 6000, "a@b.c", "G", "UTC", none, .confirmed, 7, some 8⟩,
        none⟩) :=
  (c4_nda_gating _ 1000 ⟨8, "G", "UTC", none, 7⟩ 50 (by decide)
      ⟨8, 3, 5000, 6000, "a@b.c", none, .active, 1000000, 42⟩ (by decide)
      (by decide) (by decide)
      ⟨3, 2, "nda-call", 30, 0, 0, true, true⟩ (by decide) (by decide)).2
    ⟨21, some 8, none, .signed, "a@b.c", none, none, some 500, none⟩
    (by decide) (by decide)

/-- A webhook delivery whose `(provider, webhook_id)` record is already
`completed` replays the cached response and changes nothing. -/
theorem processSignwellWebhook_completed (st : DBState) (now : Nat)
    (p : SignwellPayload) (ex : ProcessedWebhook)
    (hfind : st.processedWebhooks.find? (fun w =>
      w.provider == "signwell" && w.webhookId == p.documentId ++ ":" ++ p.event) = some ex)
    (hcomp : ex.status = .completed) :
    processSignwellWebhook st now p =
      (st, match ex.responseBody with | some b => b | none => .received) := by
  unfold processSignwellWebhook
  dsimp only
  rw [hfind]
  dsimp only
  rw [if_pos hcomp]

/-- A fresh webhook delivery returns the `received` body. -/
theorem processSignwellWebhook_fresh_resp (st : DBState) (now : Nat)
    (p : SignwellPayload)
    (hfresh : st.processedWebhooks.find? (fun w =>
      w.provider == "signwell" && w.webhookId == p.documentId ++ ":" ++ p.event) = none) :
    (processSignwellWebhook st now p).2 = .received := by
  unfold processSignwellWebhook
  dsimp only
  rw [hfresh]

/-- After a fresh webhook delivery the record for its id is stored as
`completed` with the `received` body cached. -/
theorem processSignwellWebhook_fresh_record (st : DBState) (now : Nat)
    (p : SignwellPayload)
    (hfresh : st.processedWebhooks.find? (fun w =>
      w.provider == "signwell" && w.webhookId == p.documentId ++ ":" ++ p.event) = none) :
    (processSignwellWebhook st now p).1.processedWebhooks.find? (fun w =>
      w.provider == "signwell" && w.webhookId == p.documentId ++ ":" ++ p.event) =
    some ⟨p.documentId ++ ":" ++ p.event, "signwell", p.event, .completed,
      some .received⟩ := by
  unfold processSignwellWebhook
  dsimp only
  rw [hfresh]
  dsimp only
  rw [signwellDispatch_processedWebhooks]
  dsimp only
  rw [List.find?_map]
  have hfun : ((fun w : ProcessedWebhook =>
        w.provider == "signwell" && w.webhookId == p.documentId ++ ":" ++ p.event) ∘
      (fun w : ProcessedWebhook =>
        if (w.provider == "signwell" &&
            w.webhookId == p.documentId ++ ":" ++ p.event) = true then
          { w with
              status := WebhookStatus.completed
              responseBody := some RespBody.received }
        else w)) =
      (fun w : ProcessedWebhook =>
        w.provider == "signwell" && w.webhookId == p.documentId ++ ":" ++ p.event) := by
    funext w
    simp only [Function.comp]
    split <;> rfl
  rw [hfun, List.find?_append, hfresh]
  simp

/-- C5: a SignWell webhook delivery whose derived id
`document_id:event` already has a `completed` record for provider
`signwell` returns the previously cached response body with no state
change (no document update, no event); and delivering the identical
payload twice — the first delivery fresh — yields the same response the
second time with no additional state change. -/
theorem c5_webhook_idempotent_replay (st : DBState) (now now2 : Nat)
    (p : SignwellPayload) :
    (∀ ex, st.processedWebhooks.find? (fun w =>
        w.provider == "signwell" && w.webhookId == p.documentId ++ ":" ++ p.event) = some ex →
      ex.status = .completed →
      processSignwellWebhook st now p =
        (st, match ex.responseBody with | some b => b | none => .received)) ∧
    (st.processedWebhooks.find? (fun w =>
        w.provider == "signwell" && w.webhookId == p.documentId ++ ":" ++ p.event) = none →
      processSignwellWebhook (processSignwellWebhook st now p).1 now2 p =
        ((processSignwellWebhook st now p).1, (processSignwellWebhook st now p).2)) := by
  refine ⟨fun ex hfind hcomp =>
    processSignwellWebhook_completed st now p ex hfind hcomp, ?_⟩
  intro hfresh
  have hrec := processSignwellWebhook_fresh_record st now p hfresh
  have h2 := processSignwellWebhook_completed _ now2 p _ hrec rfl
  rw [h2, processSignwellWebhook_fresh_resp st now p hfresh]

/-- Witness for C5: the concrete `document_sent` payload delivered twice
gives the same response and state the second time. -/
theorem c5_webhook_idempotent_replay_witness :
    processSignwellWebhook (processSignwellWebhook
        ⟨[], [], [], [⟨21, some 8, none, .pending, "a@b.c", none, none, none, none⟩], [], []⟩
        1 ⟨"document_sent", "env1", none, some 8, none⟩).1
      5 ⟨"document_sent", "env1", none, some 8, none⟩ =
    ((processSignwellWebhook
        ⟨[], [], [], [⟨21, some 8, none, .pending, "a@b.c", none, none, none, none⟩], [], []⟩
        1 ⟨"document_sent", "env1", none, some 8, none⟩).1,
     (processSignwellWebhook
        ⟨[], [], [], [⟨21, some 8, none, .pending, "a@b.c", none, none, none, none⟩], [], []⟩
        1 ⟨"document_sent", "env1", none, some 8, none⟩).2) :=
  (c5_webhook_idempotent_replay
    ⟨[], [], [], [⟨21, some 8, none, .pending, "a@b.c", none, none, none, none⟩], [], []⟩
    1 5 ⟨"document_sent", "env1", none, some 8, none⟩).2 (by decide)

/-- Counterexample for C6: an active hold that straddles the start of
the requested window (it begins one minute before day 10) intersects
the buffered window, so the claim says it is loaded — but
`getExistingSlots` filters by containment (`slot_start ≥` window start)
and does not load it, and the overlapping buffered candidate is NOT
blocked. -/
theorem c6_occupancy_counterexample :
    getExistingSlots
      ⟨[], [⟨8, 1, 863940000, 865800000, "a@b.c", none, .active, 999999999, 42⟩],
        [], [], [], []⟩ 1 10 10 = [] ∧
    claimedOccupancy
      ⟨[], [⟨8, 1, 863940000, 865800000, "a@b.c", none, .active, 999999999, 42⟩],
        [], [], [], []⟩ 1 10 10 0 0 = [(863940000, 865800000)] ∧
    hasConflict 864000000 865800000
      (getExistingSlots
        ⟨[], [⟨8, 1, 863940000, 865800000, "a@b.c", none, .active, 999999999, 42⟩],
          [], [], [], []⟩ 1 10 10) = false ∧
    rangesOverlap 864000000 865800000 863940000 865800000 = true := by
  decide

/-- C6 (amended): the occupancy `getExistingSlots` loads for a window is
exactly the active holds and confirmed bookings of the meeting type
whose `[slot_start, slot_end)` interval is CONTAINED in
`[startOf startDay, endOf endDay]` — `slot_start ≥` the window start
and `slot_end ≤ 23:59:59.999` of the end day — with no buffer
expansion; an interval that merely straddles a window boundary is not
loaded. -/
theorem c6_occupancy_characterization (st : DBState) (mtId startDay endDay s e : Nat) :
    (s, e) ∈ getExistingSlots st mtId startDay endDay ↔
      ((∃ h ∈ st.holds, h.meetingTypeId = mtId ∧ h.status = HoldStatus.active ∧
        startDay * DAY_MS ≤ h.slotStart ∧ h.slotEnd ≤ endDay * DAY_MS + DAY_MS - 1 ∧
        h.slotStart = s ∧ h.slotEnd = e) ∨
       (∃ b ∈ st.bookings, b.meetingTypeId = mtId ∧ b.status = BookingStatus.confirmed ∧
        startDay * DAY_MS ≤ b.slotStart ∧ b.slotEnd ≤ endDay * DAY_MS + DAY_MS - 1 ∧
        b.slotStart = s ∧ b.slotEnd = e)) := by
  simp only [getExistingSlots, List.mem_append, List.mem_map, List.mem_filter,
    Bool.and_eq_true, beq_iff_eq, decide_eq_true_eq, Prod.mk.injEq]
  constructor
  · rintro (⟨h, ⟨hmem, ⟨⟨hmt, hstat⟩, hge⟩, hle⟩, hs, he⟩ |
            ⟨b, ⟨hmem, ⟨⟨hmt, hstat⟩, hge⟩, hle⟩, hs, he⟩)
    · exact Or.inl ⟨h, hmem, hmt, hstat, hge, hle, hs, he⟩
    · exact Or.inr ⟨b, hmem, hmt, hstat, hge, hle, hs, he⟩
  · rintro (⟨h, hmem, hmt, hstat, hge, hle, hs, he⟩ |
            ⟨b, hmem, hmt, hstat, hge, hle, hs, he⟩)
    · exact Or.inl ⟨h, ⟨hmem, ⟨⟨hmt, hstat⟩, hge⟩, hle⟩, hs, he⟩
    · exact Or.inr ⟨b, ⟨hmem, ⟨⟨hmt, hstat⟩, hge⟩, hle⟩, hs, he⟩

/-- Every candidate the slot loop emits starts at or after the loop
cursor and fits before the rule end. -/
theorem slotLoop_mem_bounds (fuel : Nat) (ruleEnd durMs bufB bufA minB day : Nat)
    (blackouts : List Blackout) (ex : List (Nat × Nat)) :
    ∀ s x, x ∈ slotLoop fuel s ruleEnd durMs bufB bufA minB day blackouts ex →
      s ≤ x.start ∧ x.start + durMs ≤ ruleEnd := by
  induction fuel with
  | zero => intro s x hx; simp [slotLoop] at hx
  | succ fuel ih =>
    intro s x hx
    unfold slotLoop at hx
    by_cases hcond : s + durMs ≤ ruleEnd
    · rw [if_pos hcond] at hx
      dsimp only at hx
      by_cases hlead : minB < s
      · rw [if_pos hlead] at hx
        rcases List.mem_cons.mp hx with hx | hx
        · subst hx; exact ⟨Nat.le_refl _, hcond⟩
        · have := ih (s + durMs) x hx
          exact ⟨Nat.le_trans (Nat.le_add_right s durMs) this.1, this.2⟩
      · rw [if_neg hlead] at hx
        have := ih (s + durMs) x hx
        exact ⟨Nat.le_trans (Nat.le_add_right s durMs) this.1, this.2⟩
    · rw [if_neg hcond] at hx
      simp at hx

/-- The slot loop emits candidates in ascending start order. -/
theorem slotLoop_sorted (fuel : Nat) (ruleEnd durMs bufB bufA minB day : Nat)
    (blackouts : List Blackout) (ex : List (Nat × Nat)) :
    ∀ s, (slotLoop fuel s ruleEnd durMs bufB bufA minB day blackouts ex).Pairwise
      (fun a b => a.start ≤ b.start) := by
  induction fuel with
  | zero => intro s; simp [slotLoop]
  | succ fuel ih =>
    intro s
    unfold slotLoop
    by_cases hcond : s + durMs ≤ ruleEnd
    · rw [if_pos hcond]
      dsimp only
      by_cases hlead : minB < s
      · rw [if_pos hlead]
        refine List.Pairwise.cons ?_ (ih (s + durMs))
        intro y hy
        have := slotLoop_mem_bounds fuel ruleEnd durMs bufB bufA minB day blackouts ex
          (s + durMs) y hy
        exact Nat.le_trans (Nat.le_add_right s durMs) this.1
      · rw [if_neg hlead]
        exact ih (s + durMs)
    · rw [if_neg hcond]
      simp

/-- Candidates of one rule on one day stay inside that calendar day,
provided the rule's `TIME` fields are in range and the duration is
positive. -/
theorem generateSlotsForRule_day_bounds (day : Nat) (rule : ARule) (mt : MeetingType)
    (blackouts : List Blackout) (ex : List (Nat × Nat)) (minB : Nat)
    (hdur : 1 ≤ mt.durationMinutes)
    (hh : rule.endHour ≤ 23) (hm : rule.endMinute ≤ 59) :
    ∀ x ∈ generateSlotsForRule day rule mt blackouts ex minB,
      day * DAY_MS ≤ x.start ∧ x.start < (day + 1) * DAY_MS := by
  intro x hx
  unfold generateSlotsForRule at hx
  have hb := slotLoop_mem_bounds 1441
    (day * DAY_MS + (rule.endHour * 60 + rule.endMinute) * MINUTE_MS)
    (mt.durationMinutes * MINUTE_MS) (mt.bufferBeforeMinutes * MINUTE_MS)
    (mt.bufferAfterMinutes * MINUTE_MS) minB day blackouts ex
    (day * DAY_MS + (rule.startHour * 60 + rule.startMinute) * MINUTE_MS) x hx
  constructor
  · exact Nat.le_trans (Nat.le_add_right _ _) hb.1
  · have hdurpos : 0 < mt.durationMinutes * MINUTE_MS :=
      Nat.mul_pos hdur (by norm_num [MINUTE_MS])
    have hlt : x.start < day * DAY_MS + (rule.endHour * 60 + rule.endMinute) * MINUTE_MS :=
      Nat.lt_of_lt_of_le (Nat.lt_add_of_pos_right hdurpos) hb.2
    have hend : (rule.endHour * 60 + rule.endMinute) * MINUTE_MS < DAY_MS := by
      have : rule.endHour * 60 + rule.endMinute ≤ 1439 := by omega
      calc (rule.endHour * 60 + rule.endMinute) * MINUTE_MS
          ≤ 1439 * MINUTE_MS := Nat.mul_le_mul_right _ this
        _ < DAY_MS := by norm_num [MINUTE_MS, DAY_MS]
    calc x.start < day * DAY_MS + (rule.endHour * 60 + rule.endMinute) * MINUTE_MS := hlt
      _ < day * DAY_MS + DAY_MS := Nat.add_lt_add_left hend _
      _ = (day + 1) * DAY_MS := by ring

/-- Concatenating per-day slot lists over an ascending day range is
sorted if each day's list is sorted and confined to its day. -/
theorem pairwise_flatMap_days (f : Nat → List AvailableSlot) (s n : Nat)
    (hs : ∀ d, (f d).Pairwise (fun a b => a.start ≤ b.start))
    (hb : ∀ d x, x ∈ f d → d * DAY_MS ≤ x.start ∧ x.start < (d + 1) * DAY_MS) :
    ((List.range' s n).flatMap f).Pairwise (fun a b => a.start ≤ b.start) := by
  induction n generalizing s with
  | zero => simp
  | succ n ih =>
    rw [List.range'_succ, List.flatMap_cons, List.pairwise_append]
    refine ⟨hs s, ih (s + 1), ?_⟩
    intro a ha b hb'
    obtain ⟨d, hd, hbd⟩ := List.mem_flatMap.mp hb'
    have hds : s + 1 ≤ d := (List.mem_range'_1.mp hd).1
    have h1 : a.start < (s + 1) * DAY_MS := (hb s a ha).2
    have h2 : d * DAY_MS ≤ b.start := (hb d b hbd).1
    have h3 : (s + 1) * DAY_MS ≤ d * DAY_MS := Nat.mul_le_mul_right _ hds
    omega

/-- Counterexample for C7: two rules for the same weekday supplied with
the later window first (14:00–15:00 before 09:00–10:00) make
`get-slots` return starts out of order — the engine concatenates each
rule's slots in list order and never sorts. -/
theorem c7_sorted_counterexample :
    ¬ (generateSlots ⟨1, 2, "intro", 60, 0, 0, false, true⟩
        [⟨0, 14, 0, 15, 0, 0, none⟩, ⟨0, 9, 0, 10, 0, 0, none⟩]
        [] [] 3 3 0).Pairwise (fun a b => a.start ≤ b.start) := by
  decide

/-- C7 (amended): the `get-slots` computation always returns a finite
list, and it is sorted ascending by `start` whenever at most one
availability rule applies per weekday (pairwise distinct
`day_of_week`); with several rules for one weekday the entries follow
the rules' list order within each day and need not be sorted. -/
theorem c7_generateSlots_sorted (mt : MeetingType) (rules : List ARule)
    (blackouts : List Blackout) (existing : List (Nat × Nat))
    (startDay endDay now : Nat)
    (hdur : 1 ≤ mt.durationMinutes)
    (hw : rules.Pairwise (fun r1 r2 => r1.dayOfWeek ≠ r2.dayOfWeek))
    (hvalid : ∀ r ∈ rules, r.endHour ≤ 23 ∧ r.endMinute ≤ 59) :
    (generateSlots mt rules blackouts existing startDay endDay now).Pairwise
      (fun a b => a.start ≤ b.start) := by
  unfold generateSlots
  dsimp only
  apply pairwise_flatMap_days
  · intro d
    dsimp only
    split
    · exact List.Pairwise.nil
    · cases hf : rules.filter (fun r =>
        if d < r.effectiveFromDay then false
        else
          match r.effectiveUntilDay with
          | some u => if u < d then false else r.dayOfWeek == dayOfWeekOf d
          | none => r.dayOfWeek == dayOfWeekOf d) with
      | nil => simp
      | cons r t =>
        cases t with
        | nil =>
          simp only [List.flatMap_cons, List.flatMap_nil, List.append_nil]
          exact slotLoop_sorted 1441 _ _ _ _ _ _ _ _ _
        | cons r2 t2 =>
          exfalso
          have hdow : ∀ rr : ARule,
              (if d < rr.effectiveFromDay then false
                else
                  match rr.effectiveUntilDay with
                  | some u => if u < d then false else rr.dayOfWeek == dayOfWeekOf d
                  | none => rr.dayOfWeek == dayOfWeekOf d) = true →
              rr.dayOfWeek = dayOfWeekOf d := by
            intro rr hp
            split at hp
            · simp at hp
            · split at hp
              · split at hp
                · simp at hp
                · exact beq_iff_eq.mp hp
              · exact beq_iff_eq.mp hp
          have hmem1 := List.mem_cons_self r (r2 :: t2)
          rw [← hf] at hmem1
          have hmem2 := List.mem_cons_of_mem r (List.mem_cons_self r2 t2)
          rw [← hf] at hmem2
          have h1 := hdow r (List.mem_filter.mp hmem1).2
          have h2 := hdow r2 (List.mem_filter.mp hmem2).2
          have hpw := hw.filter (fun r =>
            if d < r.effectiveFromDay then false
            else
              match r.effectiveUntilDay with
              | some u => if u < d then false else r.dayOfWeek == dayOfWeekOf d
              | none => r.dayOfWeek == dayOfWeekOf d)
          rw [hf] at hpw
          exact (List.pairwise_cons.mp hpw).1 r2 (List.mem_cons_self r2 t2) (h1.trans h2.symm)
  · intro d x hx
    simp only at hx
    split at hx
    · simp at hx
    · obtain ⟨r, hr, hxr⟩ := List.mem_flatMap.mp hx
      have hrin : r ∈ rules := List.mem_of_mem_filter hr
      exact generateSlotsForRule_day_bounds d r mt blackouts existing _
        hdur (hvalid r hrin).1 (hvalid r hrin).2 x hxr

/-- Witness for C7: with a single 09:00–10:00 rule the two-day slot
list is sorted ascending by start. -/
theorem c7_generateSlots_sorted_witness :
    (generateSlots ⟨1, 2, "intro", 60, 0, 0, false, true⟩
      [⟨0, 9, 0, 10, 0, 0, none⟩] [] [] 3 4 0).Pairwise
      (fun a b => a.start ≤ b.start) :=
  c7_generateSlots_sorted ⟨1, 2, "intro", 60, 0, 0, false, true⟩
    [⟨0, 9, 0, 10, 0, 0, none⟩] [] [] 3 4 0
    (by decide) (by decide) (by decide)

/-- `releaseHold` on a hold that is not currently active (or absent) is
a no-op: no transition, no event. -/
theorem releaseHold_not_active (st : DBState) (holdId : Nat) (kind : ReleaseKind)
    (h : st.holds.find? (fun h => h.id == holdId && h.status == HoldStatus.active) = none) :
    releaseHold st holdId kind = (st, false) := by
  unfold releaseHold
  rw [h]

/-- `releaseHold` on an active hold transitions it and publishes one
`slot.released` carrying the corresponding reason. -/
theorem releaseHold_active (st : DBState) (holdId : Nat) (kind : ReleaseKind)
    (hold : SlotHold)
    (h : st.holds.find? (fun h => h.id == holdId && h.status == HoldStatus.active) = some hold) :
    releaseHold st holdId kind =
      ({ st with
          holds := st.holds.map (fun h =>
            if h.id == holdId && h.status == HoldStatus.active then
              { h with status := match kind with
                  | .converted => HoldStatus.converted
                  | .canceled => HoldStatus.released }
            else h)
          events := st.events ++
            [.slotReleased hold.id hold.meetingTypeId hold.slotStart hold.slotEnd
              (match kind with
                | .converted => ReleaseReason.converted
                | .canceled => ReleaseReason.canceled)] },
        true) := by
  unfold releaseHold
  rw [h]

/-- The sweeper is a no-op when no hold is both active and past its
expiry: already-terminal rows are not transitioned again and emit no
second `slot.released`. -/
theorem expireHolds_no_due (st : DBState) (now : Nat)
    (h : ∀ x ∈ st.holds, x.status = HoldStatus.active → ¬ x.expiresAt < now) :
    expireHolds st now = (st, []) := by
  unfold expireHolds
  dsimp only
  have hfilter : st.holds.filter
      (fun h => h.status == HoldStatus.active && h.expiresAt < now) = [] := by
    rw [List.filter_eq_nil_iff]
    intro x hx
    simp only [Bool.and_eq_true, beq_iff_eq, decide_eq_true_eq, not_and]
    exact h x hx
  have hmap : st.holds.map (fun h =>
      if h.status == HoldStatus.active && h.expiresAt < now then
        { h with status := HoldStatus.expired } else h) = st.holds := by
    conv_rhs => rw [← List.map_id st.holds]
    apply List.map_congr_left
    intro x hx
    rw [if_neg]
    · rfl
    · simp only [Bool.and_eq_true, beq_iff_eq, decide_eq_true_eq, not_and]
      exact h x hx
  rw [hfilter, hmap]
  simp

/-- The success path of `confirmBooking`, explicitly: fresh key, active
unexpired hold, meeting type found, NDA gate passed, no exclusion
conflict. -/
theorem confirmBooking_success_state (st : DBState) (now : Nat)
    (p : ConfirmBookingParams) (newBookingId : Nat)
    (hkey : st.bookings.find? (fun b => b.idempotencyKey == p.idempotencyKey) = none)
    (hold : SlotHold)
    (hfind : st.holds.find? (fun h => h.id == p.holdId) = some hold)
    (hact : hold.status = .active) (hnexp : ¬ hold.expiresAt < now)
    (mt : MeetingType)
    (hmt : st.meetingTypes.find? (fun m => m.id == hold.meetingTypeId) = some mt)
    (hnda : (mt.requiresNda && (st.documents.find? (fun d =>
      d.holdId == some p.holdId && d.status == .signed)).isNone) = false)
    (hconf : (st.bookings.find? (fun b =>
      b.meetingTypeId == hold.meetingTypeId && b.status == .confirmed &&
      rangesOverlap b.slotStart b.slotEnd hold.slotStart hold.slotEnd)).isSome = false) :
    confirmBooking st now p newBookingId =
      ({ st with
          bookings := st.bookings ++
            [{ id := newBookingId
               meetingTypeId := hold.meetingTypeId
               hostUserId := mt.ownerId
               slotStart := hold.slotStart
               slotEnd := hold.slotEnd
               guestEmail := hold.heldByEmail
               guestName := p.guestName
               guestTimezone := p.guestTimezone
               guestNotes := p.guestNotes
               status := .confirmed
               idempotencyKey := p.idempotencyKey
               fromHoldId := some p.holdId }]
          holds := st.holds.map (fun h =>
            if h.id == p.holdId then { h with status := HoldStatus.converted } else h)
          documents := st.documents.map (fun d =>
            if d.holdId == some p.holdId then { d with bookingId := some newBookingId } else d) },
       ⟨true, some
         { id := newBookingId
           meetingTypeId := hold.meetingTypeId
           hostUserId := mt.ownerId
           slotStart := hold.slotStart
           slotEnd := hold.slotEnd
           guestEmail := hold.heldByEmail
           guestName := p.guestName
           guestTimezone := p.guestTimezone
           guestNotes := p.guestNotes
           status := .confirmed
           idempotencyKey := p.idempotencyKey
           fromHoldId := some p.holdId }, none⟩) := by
  unfold confirmBooking
  rw [hkey, hfind]
  dsimp only
  rw [if_neg (by simp [hact]), if_neg hnexp, hmt]
  dsimp only
  rw [if_neg (by simp [hnda]), if_neg (by simp [hconf])]

/-- After a successful fresh confirm, the hold row is already
`converted`, so a `releaseHold(holdId, converted)` on the resulting
state is a no-op that publishes NO `slot.released` event. -/
theorem confirm_then_releaseHold_noop (st : DBState) (now : Nat)
    (p : ConfirmBookingParams) (newBookingId : Nat)
    (hkey : st.bookings.find? (fun b => b.idempotencyKey == p.idempotencyKey) = none)
    (hold : SlotHold)
    (hfind : st.holds.find? (fun h => h.id == p.holdId) = some hold)
    (hact : hold.status = .active) (hnexp : ¬ hold.expiresAt < now)
    (mt : MeetingType)
    (hmt : st.meetingTypes.find? (fun m => m.id == hold.meetingTypeId) = some mt)
    (hnda : (mt.requiresNda && (st.documents.find? (fun d =>
      d.holdId == some p.holdId && d.status == .signed)).isNone) = false)
    (hconf : (st.bookings.find? (fun b =>
      b.meetingTypeId == hold.meetingTypeId && b.status == .confirmed &&
      rangesOverlap b.slotStart b.slotEnd hold.slotStart hold.slotEnd)).isSome = false) :
    releaseHold (confirmBooking st now p newBookingId).1 p.holdId .converted =
      ((confirmBooking st now p newBookingId).1, false) := by
  rw [confirmBooking_success_state st now p newBookingId hkey hold hfind hact hnexp
    mt hmt hnda hconf]
  apply releaseHold_not_active
  rw [List.find?_eq_none]
  intro x hx
  obtain ⟨y, hy, rfl⟩ := List.mem_map.mp hx
  by_cases hid : (y.id == p.holdId) = true
  · rw [if_pos hid]
    simp
  · rw [if_neg hid]
    simp [hid]

/-- Counterexample for C8: a successful booking confirmation through the
route moves the hold to the terminal state `converted`, yet no
`slot.released` event is published — the in-transaction convert emits
nothing and the route's post-commit `releaseHold(holdId, converted)`
finds the hold no longer active and is a no-op. -/
theorem c8_converted_counterexample :
    (routeConfirmBooking
        ⟨[⟨1, 2, "intro", 30, 0, 0, false, true⟩],
          [⟨8, 1, 5000, 6000, "a@b.c", none, .active, 1000000, 42⟩],
          [], [], [], []⟩
        1000 "intro" ⟨8, "G", "UTC", none, 7⟩ 50).1.holds =
      [⟨8, 1, 5000, 6000, "a@b.c", none, .converted, 1000000, 42⟩] ∧
    (routeConfirmBooking
        ⟨[⟨1, 2, "intro", 30, 0, 0, false, true⟩],
          [⟨8, 1, 5000, 6000, "a@b.c", none, .active, 1000000, 42⟩],
          [], [], [], []⟩
        1000 "intro" ⟨8, "G", "UTC", none, 7⟩ 50).1.events.filter isSlotReleased = [] := by
  decide

/-- C8 (amended): transitions out of `active` through `releaseHold` and
the sweeper are single-shot — a hold that is not currently active is
never transitioned again and produces no event — and an actual release
publishes one `slot.released` with the corresponding reason; the
`converted` transition performed inside the booking-confirmation
transaction, however, publishes no `slot.released`: the route's
post-commit `releaseHold(holdId, converted)` is a no-op there. -/
theorem c8_terminal_transitions :
    (∀ (st : DBState) (holdId : Nat) (kind : ReleaseKind),
      st.holds.find? (fun h => h.id == holdId && h.status == HoldStatus.active) = none →
      releaseHold st holdId kind = (st, false)) ∧
    (∀ (st : DBState) (holdId : Nat) (kind : ReleaseKind) (hold : SlotHold),
      st.holds.find? (fun h => h.id == holdId && h.status == HoldStatus.active) = some hold →
      releaseHold st holdId kind =
        ({ st with
            holds := st.holds.map (fun h =>
              if h.id == holdId && h.status == HoldStatus.active then
                { h with status := match kind with
                    | .converted => HoldStatus.converted
                    | .canceled => HoldStatus.released }
              else h)
            events := st.events ++
              [.slotReleased hold.id hold.meetingTypeId hold.slotStart hold.slotEnd
                (match kind with
                  | .converted => ReleaseReason.converted
                  | .canceled => ReleaseReason.canceled)] },
          true)) ∧
    (∀ (st : DBState) (now : Nat),
      (∀ x ∈ st.holds, x.status = HoldStatus.active → ¬ x.expiresAt < now) →
      expireHolds st now = (st, [])) ∧
    (∀ (st : DBState) (now : Nat) (p : ConfirmBookingParams) (newBookingId : Nat),
      st.bookings.find? (fun b => b.idempotencyKey == p.idempotencyKey) = none →
      ∀ hold, st.holds.find? (fun h => h.id == p.holdId) = some hold →
      hold.status = .active → ¬ hold.expiresAt < now →
      ∀ mt, st.meetingTypes.find? (fun m => m.id == hold.meetingTypeId) = some mt →
      (mt.requiresNda && (st.documents.find? (fun d =>
        d.holdId == some p.holdId && d.status == .signed)).isNone) = false →
      (st.bookings.find? (fun b =>
        b.meetingTypeId == hold.meetingTypeId && b.status == .confirmed &&
        rangesOverlap b.slotStart b.slotEnd hold.slotStart hold.slotEnd)).isSome = false →
      releaseHold (confirmBooking st now p newBookingId).1 p.holdId .converted =
        ((confirmBooking st now p newBookingId).1, false)) :=
  ⟨releaseHold_not_active, releaseHold_active, expireHolds_no_due,
    fun st now p newBookingId hkey hold hfind hact hnexp mt hmt hnda hconf =>
      confirm_then_releaseHold_noop st now p newBookingId hkey hold hfind hact hnexp
        mt hmt hnda hconf⟩

/-- Witness for C8: a released hold is not transitioned again (no-op,
no event); an active hold is released with one `slot.released`; a
sweep over an already-expired row emits nothing; and the post-commit
convert after a concrete successful confirm is a no-op. -/
theorem c8_terminal_transitions_witness :
    releaseHold ⟨[], [⟨8, 1, 5000, 6000, "a@b.c", none, .released, 1000, 42⟩],
        [], [], [], []⟩ 8 .canceled =
      (⟨[], [⟨8, 1, 5000, 6000, "a@b.c", none, .released, 1000, 42⟩],
        [], [], [], []⟩, false) ∧
    expireHolds ⟨[], [⟨8, 1, 5000, 6000, "a@b.c", none, .expired, 1000, 42⟩],
        [], [], [], []⟩ 2000 =
      (⟨[], [⟨8, 1, 5000, 6000, "a@b.c", none, .expired, 1000, 42⟩],
        [], [], [], []⟩, []) ∧
    releaseHold (confirmBooking
        ⟨[⟨1, 2, "intro", 30, 0, 0, false, true⟩],
          [⟨8, 1, 5000, 6000, "a@b.c", none, .active, 1000000, 42⟩],
          [], [], [], []⟩ 1000 ⟨8, "G", "UTC", none, 7⟩ 50).1 8 .converted =
      ((confirmBooking
        ⟨[⟨1, 2, "intro", 30, 0, 0, false, true⟩],
          [⟨8, 1, 5000, 6000, "a@b.c", none, .active, 1000000, 42⟩],
          [], [], [], []⟩ 1000 ⟨8, "G", "UTC", none, 7⟩ 50).1, false) :=
  ⟨c8_terminal_transitions.1 _ 8 .canceled (by decide),
   c8_terminal_transitions.2.2.1 _ 2000 (by decide),
   c8_terminal_transitions.2.2.2 _ 1000 ⟨8, "G", "UTC", none, 7⟩ 50 (by decide)
     ⟨8, 1, 5000, 6000, "a@b.c", none, .active, 1000000, 42⟩ (by decide)
     (by decide) (by decide)
     ⟨1, 2, "intro", 30, 0, 0, false, true⟩ (by decide) (by decide) (by decide)⟩

/-- `find?` over a list extended on the right finds the new element when
nothing earlier matches. -/
theorem find?_append_singleton {α} (q : α → Bool) (l : List α) (x : α)
    (hl : l.find? q = none) (hx : q x = true) : (l ++ [x]).find? q = some x := by
  rw [List.find?_append, hl]
  simp [List.find?, hx]

/-- The success path of `createHold`, explicitly: fresh key, active
meeting type, no hold conflict, no booking conflict. -/
theorem createHold_success_state (st : DBState) (now : Nat) (p : CreateHoldParams)
    (newId : Nat)
    (hkey : st.holds.find? (fun h => h.idempotencyKey == p.idempotencyKey) = none)
    (mt : MeetingType)
    (hmt : st.meetingTypes.find? (fun m => m.id == p.meetingTypeId && m.isActive) = some mt)
    (hhc : st.holds.find? (fun h =>
      h.meetingTypeId == p.meetingTypeId && h.status == .active &&
      rangesOverlap h.slotStart h.slotEnd p.slotStart p.slotEnd) = none)
    (hbc : st.bookings.find? (fun b =>
      b.meetingTypeId == p.meetingTypeId && b.status == .confirmed &&
      rangesOverlap b.slotStart b.slotEnd p.slotStart p.slotEnd) = none) :
    createHold st now p newId =
      ({ st with holds := st.holds ++
          [{ id := newId
             meetingTypeId := p.meetingTypeId
             slotStart := p.slotStart
             slotEnd := p.slotEnd
             heldByEmail := lowerString p.email
             heldByName := p.name
             status := .active
             expiresAt := now + HOLD_DURATION_MS
             idempotencyKey := p.idempotencyKey }] },
       ⟨true, some newId, some (now + HOLD_DURATION_MS), none⟩) := by
  unfold createHold
  rw [hkey, hmt, hhc, hbc]

/-- Counterexample for C9: replaying create-hold with the same key does
return the same `holdId`, but each successful response publishes its
own `slot.held` (fresh event id, outside the dedup window's reach), so
the bus carries TWO `slot.held` events, not at most one. -/
theorem c9_replay_counterexample :
    (routeCreateHold ⟨[⟨1, 2, "intro", 30, 0, 0, false, true⟩], [], [], [], [], []⟩
        1000 "intro" ⟨5000, 6000, "a@b.c", none, 42⟩ 7).2 =
      .created 7 901000 false ∧
    (routeCreateHold
        (routeCreateHold ⟨[⟨1, 2, "intro", 30, 0, 0, false, true⟩], [], [], [], [], []⟩
          1000 "intro" ⟨5000, 6000, "a@b.c", none, 42⟩ 7).1
        2000 "intro" ⟨5000, 6000, "a@b.c", none, 42⟩ 9).2 =
      .created 7 901000 false ∧
    ((routeCreateHold
        (routeCreateHold ⟨[⟨1, 2, "intro", 30, 0, 0, false, true⟩], [], [], [], [], []⟩
          1000 "intro" ⟨5000, 6000, "a@b.c", none, 42⟩ 7).1
        2000 "intro" ⟨5000, 6000, "a@b.c", none, 42⟩ 9).1.events.countP isSlotHeld) = 2 := by
  decide

/-- C9 (amended): create-hold requested twice with the same key returns
the same `holdId` (and the same `expiresAt`) in both responses, but the
route publishes a `slot.held` event on EVERY successful response — each
with a fresh event id, which the two-minute dedup window therefore
never suppresses — so the two calls put two identical-payload
`slot.held` events on the bus, not at most one. -/
theorem c9_replay_same_holdId (st : DBState) (now1 now2 : Nat) (slug : String)
    (body : HoldRequestBody) (newId1 newId2 : Nat) (mt : MeetingType)
    (hslug : st.meetingTypes.find? (fun m => m.slug == lowerString slug && m.isActive) = some mt)
    (hmtid : st.meetingTypes.find? (fun m => m.id == mt.id && m.isActive) = some mt)
    (hkey : st.holds.find? (fun h => h.idempotencyKey == body.idempotencyKey) = none)
    (hhc : st.holds.find? (fun h =>
      h.meetingTypeId == mt.id && h.status == .active &&
      rangesOverlap h.slotStart h.slotEnd body.slotStart body.slotEnd) = none)
    (hbc : st.bookings.find? (fun b =>
      b.meetingTypeId == mt.id && b.status == .confirmed &&
      rangesOverlap b.slotStart b.slotEnd body.slotStart body.slotEnd) = none) :
    (routeCreateHold st now1 slug body newId1).2 =
      .created newId1 (now1 + HOLD_DURATION_MS) mt.requiresNda ∧
    (routeCreateHold (routeCreateHold st now1 slug body newId1).1
        now2 slug body newId2).2 =
      .created newId1 (now1 + HOLD_DURATION_MS) mt.requiresNda ∧
    (routeCreateHold (routeCreateHold st now1 slug body newId1).1
        now2 slug body newId2).1.events =
      st.events ++ [.slotHeld newId1 mt.id body.slotStart body.slotEnd] ++
        [.slotHeld newId1 mt.id body.slotStart body.slotEnd] := by
  have h1 : routeCreateHold st now1 slug body newId1 =
      ({ st with
          holds := st.holds ++
            [{ id := newId1
               meetingTypeId := mt.id
               slotStart := body.slotStart
               slotEnd := body.slotEnd
               heldByEmail := lowerString body.email
               heldByName := body.name
               status := .active
               expiresAt := now1 + HOLD_DURATION_MS
               idempotencyKey := body.idempotencyKey }]
          events := st.events ++ [.slotHeld newId1 mt.id body.slotStart body.slotEnd] },
       .created newId1 (now1 + HOLD_DURATION_MS) mt.requiresNda) := by
    unfold routeCreateHold
    rw [hslug]
    dsimp only
    rw [createHold_success_state st now1 _ newId1 hkey mt hmtid hhc hbc]
    simp
  have hkey2 : (st.holds ++
      [({ id := newId1
          meetingTypeId := mt.id
          slotStart := body.slotStart
          slotEnd := body.slotEnd
          heldByEmail := lowerString body.email
          heldByName := body.name
          status := .active
          expiresAt := now1 + HOLD_DURATION_MS
          idempotencyKey := body.idempotencyKey } : SlotHold)]).find?
        (fun h => h.idempotencyKey == body.idempotencyKey) =
      some { id := newId1
             meetingTypeId := mt.id
             slotStart := body.slotStart
             slotEnd := body.slotEnd
             heldByEmail := lowerString body.email
             heldByName := body.name
             status := .active
             expiresAt := now1 + HOLD_DURATION_MS
             idempotencyKey := body.idempotencyKey } :=
    find?_append_singleton _ _ _ hkey (by simp)
  have h2 : routeCreateHold (routeCreateHold st now1 slug body newId1).1
      now2 slug body newId2 =
      ({ st with
          holds := st.holds ++
            [{ id := newId1
               meetingTypeId := mt.id
               slotStart := body.slotStart
               slotEnd := body.slotEnd
               heldByEmail := lowerString body.email
               heldByName := body.name
               status := .active
               expiresAt := now1 + HOLD_DURATION_MS
               idempotencyKey := body.idempotencyKey }]
          events := (st.events ++ [.slotHeld newId1 mt.id body.slotStart body.slotEnd]) ++
            [.slotHeld newId1 mt.id body.slotStart body.slotEnd] },
       .created newId1 (now1 + HOLD_DURATION_MS) mt.requiresNda) := by
    rw [h1]
    unfold routeCreateHold
    dsimp only
    rw [hslug]
    dsimp only
    unfold createHold
    rw [hkey2]
    simp
  exact ⟨by rw [h1], by rw [h2], by rw [h2]⟩

/-- Witness for C9: the concrete replay returns `holdId 7` twice and
puts two `slot.held` events on the bus. -/
theorem c9_replay_same_holdId_witness :
    (routeCreateHold ⟨[⟨1, 2, "intro", 30, 0, 0, false, true⟩], [], [], [], [], []⟩
        1000 "intro" ⟨5000, 6000, "a@b.c", none, 42⟩ 7).2 =
      .created 7 (1000 + HOLD_DURATION_MS) false ∧
    (routeCreateHold
        (routeCreateHold ⟨[⟨1, 2, "intro", 30, 0, 0, false, true⟩], [], [], [], [], []⟩
          1000 "intro" ⟨5000, 6000, "a@b.c", none, 42⟩ 7).1
        2000 "intro" ⟨5000, 6000, "a@b.c", none, 42⟩ 9).2 =
      .created 7 (1000 + HOLD_DURATION_MS) false ∧
    (routeCreateHold
        (routeCreateHold ⟨[⟨1, 2, "intro", 30, 0, 0, false, true⟩], [], [], [], [], []⟩
          1000 "intro" ⟨5000, 6000, "a@b.c", none, 42⟩ 7).1
        2000 "intro" ⟨5000, 6000, "a@b.c", none, 42⟩ 9).1.events =
      [] ++ [.slotHeld 7 1 5000 6000] ++ [.slotHeld 7 1 5000 6000] :=
  c9_replay_same_holdId ⟨[⟨1, 2, "intro", 30, 0, 0, false, true⟩], [], [], [], [], []⟩
    1000 2000 "intro" ⟨5000, 6000, "a@b.c", none, 42⟩ 7 9
    ⟨1, 2, "intro", 30, 0, 0, false, true⟩
    (by decide) (by decide) (by decide) (by decide) (by decide)

/-- The `document_sent` handler overwrites every document of the hold —
whatever status it currently has. -/
theorem signwellDispatch_document_sent (st : DBState) (now : Nat)
    (p : SignwellPayload) (holdId : Nat)
    (hevent : p.event = "document_sent") (hhold : p.holdId = some holdId) :
    (signwellDispatch st now p).documents = st.documents.map (fun d =>
      if d.holdId == some holdId then
        { d with
            status := DocumentStatus.sent
            sentAt := some now
            externalEnvelopeId := some p.documentId }
      else d) := by
  unfold signwellDispatch
  rw [hevent, hhold]
  rw [if_pos (by decide)]
  dsimp only
  cases hf : (st.documents.map (fun d =>
      if d.holdId == some holdId then
        { d with
            status := DocumentStatus.sent
            sentAt := some now
            externalEnvelopeId := some p.documentId }
      else d)).find? (fun d => d.holdId == some holdId) with
  | some doc => rfl
  | none => rfl

/-- Counterexample for C10: a `document_sent` webhook arriving after the
document is already `signed` (its own webhook id is fresh, so the
idempotency record of the earlier `document_completed` does not block
it) moves the status BACKWARDS from `signed` to `sent`. -/
theorem c10_status_regression_counterexample :
    (processSignwellWebhook
        ⟨[], [], [],
          [⟨21, some 8, none, .signed, "a@b.c", none, none, some 500, none⟩],
          [⟨"env1:document_completed", "signwell", "document_completed", .completed,
            some .received⟩],
          []⟩
        999 ⟨"document_sent", "env1", none, some 8, none⟩).1.documents =
      [⟨21, some 8, none, .sent, "a@b.c", some "env1", some 999, some 500, none⟩] := by
  decide

/-- C10 (amended): document-status updates are unconditional overwrites:
the `document_sent` webhook handler (when its own webhook id has no
completed record) sets every document of the hold to `sent` regardless
of its current status — so an out-of-order or redelivered provider
webhook moves a `signed` document back to `sent` — and
`updateDocumentStatus` likewise stores whatever status it is given. -/
theorem c10_unconditional_status_overwrite :
    (∀ (st : DBState) (now : Nat) (p : SignwellPayload) (holdId : Nat),
      p.event = "document_sent" → p.holdId = some holdId →
      (∀ ex, st.processedWebhooks.find? (fun w =>
        w.provider == "signwell" && w.webhookId == p.documentId ++ ":" ++ p.event) =
          some ex → ex.status ≠ .completed) →
      (processSignwellWebhook st now p).1.documents = st.documents.map (fun d =>
        if d.holdId == some holdId then
          { d with
              status := DocumentStatus.sent
              sentAt := some now
              externalEnvelopeId := some p.documentId }
        else d)) ∧
    (∀ (st : DBState) (documentId : Nat) (status : DocumentStatus)
        (extra : DocUpdateData) (doc : Document),
      st.documents.find? (fun d => d.id == documentId) = some doc →
      (updateDocumentStatus st documentId status extra).1.documents =
        st.documents.map (fun d =>
          if d.id == documentId then
            { d with
                status := status
                signedAt := match extra.signedAt with
                  | some t => some t | none => d.signedAt
                signedStorageUrl := match extra.signedStorageUrl with
                  | some u => some u | none => d.signedStorageUrl }
          else d)) := by
  constructor
  · intro st now p holdId hevent hhold hnc
    unfold processSignwellWebhook
    dsimp only
    cases hfind : st.processedWebhooks.find? (fun w =>
        w.provider == "signwell" && w.webhookId == p.documentId ++ ":" ++ p.event) with
    | some ex =>
      dsimp only
      rw [if_neg (hnc ex hfind)]
      dsimp only
      exact signwellDispatch_document_sent st now p holdId hevent hhold
    | none =>
      dsimp only
      exact signwellDispatch_document_sent _ now p holdId hevent hhold
  · intro st documentId status extra doc hdoc
    unfold updateDocumentStatus
    rw [hdoc]

/-- Witness for C10: the concrete regression (signed document set back
to `sent` by a late `document_sent` webhook) and a concrete
unconditional `updateDocumentStatus` overwrite. -/
theorem c10_unconditional_status_overwrite_witness :
    (processSignwellWebhook
        ⟨[], [], [],
          [⟨21, some 8, none, .signed, "a@b.c", none, none, some 500, none⟩],
          [], []⟩
        999 ⟨"document_sent", "env1", none, some 8, none⟩).1.documents =
      [⟨21, some 8, none, .sent, "a@b.c", some "env1", some 999, some 500, none⟩] ∧
    (updateDocumentStatus
        ⟨[], [], [],
          [⟨21, some 8, none, .signed, "a@b.c", none, none, some 500, none⟩],
          [], []⟩
        21 .pending ⟨none, none⟩).1.documents =
      [⟨21, some 8, none, .pending, "a@b.c", none, none, some 500, none⟩] :=
  ⟨c10_unconditional_status_overwrite.1
      ⟨[], [], [],
        [⟨21, some 8, none, .signed, "a@b.c", none, none, some 500, none⟩],
        [], []⟩
      999 ⟨"document_sent", "env1", none, some 8, none⟩ 8 rfl rfl
      (fun ex h => by simp at h),
   c10_unconditional_status_overwrite.2
      ⟨[], [], [],
        [⟨21, some 8, none, .signed, "a@b.c", none, none, some 500, none⟩],
        [], []⟩
      21 .pending ⟨none, none⟩
      ⟨21, some 8, none, .signed, "a@b.c", none, none, some 500, none⟩ (by decide)⟩
